import Mathlib

/-!
# Verification of the cluster-image-registry-operator core

Shallow embedding of the reconciliation controller (`pkg/operator/controller.go`)
and the two storage drivers (the Azure driver and the S3 driver) of the
cluster-image-registry-operator, together with proofs about the embedded
definitions.

External collaborators (kube listers, cloud SDK calls, the resource generator)
are modelled as oracle fields of per-operation environment structures: each
field records the outcome the external call would produce.  The embedded
functions are direct transcriptions of the Go control flow over those oracles.
-/

set_option maxHeartbeats 1000000

namespace ImageRegistry

/-! ## Conditions -/

/-- `operatorapi.ConditionStatus`: True / False / Unknown. -/
inductive CondStatus
  | ctTrue
  | ctFalse
  | ctUnknown
deriving DecidableEq, Repr

/-- One entry of `status.conditions` (`operatorapi.OperatorCondition`). -/
structure Condition where
  ctype : String
  status : CondStatus
  reason : String
  message : String
  lastTransitionTime : Nat
deriving DecidableEq, Repr

/-- Modelled from the spec: `util.UpdateCondition` (pkg/storage/util, not in
src/) replaces-or-appends the condition keyed by `ctype` and bumps
`lastTransitionTime` only when the boolean status actually changes. -/
def updateCondition (now : Nat) (t : String) (s : CondStatus) (r m : String)
    (conds : List Condition) : List Condition :=
  if conds.any (fun c => c.ctype == t) then
    conds.map (fun c =>
      if c.ctype == t then
        { ctype := t, status := s, reason := r, message := m,
          lastTransitionTime := if c.status == s then c.lastTransitionTime else now }
      else c)
  else
    conds ++ [{ ctype := t, status := s, reason := r, message := m,
                lastTransitionTime := now }]

/-! ## Storage configuration variants -/

/-- `imageregistryv1.ImageRegistryConfigStorageAzure`. -/
structure AzureCfg where
  accountName : String
  container : String
deriving DecidableEq, Repr

/-- `imageregistryv1.ImageRegistryConfigStorageS3` (the CloudFront block is
never consulted by the embedded operations and is omitted). -/
structure S3Cfg where
  bucket : String
  region : String
  regionEndpoint : String
  keyID : String
  encrypt : Bool
deriving DecidableEq, Repr

/-- `imageregistryv1.ImageRegistryConfigStorage`: the tagged union of provider
configurations.  The Go fields are pointers; `none` models a nil pointer and
`reflect.DeepEqual` on the pointers corresponds to equality of the options. -/
structure StorageCfg where
  azure : Option AzureCfg
  s3 : Option S3Cfg
deriving DecidableEq, Repr

/-! ## The managed resource -/

/-- `metav1.ObjectMeta`, restricted to the fields the controller reads. -/
structure ObjectMeta where
  generation : Int
  resourceVersion : String
  deletionTimestamp : Option Int
deriving DecidableEq, Repr

/-- `imageregistryv1.ImageRegistryConfigSpec`, restricted to the fields the
embedded code reads.  `managementState` keeps the Go string representation. -/
structure ConfigSpec where
  managementState : String
  storage : StorageCfg
deriving DecidableEq, Repr

/-- `imageregistryv1.ImageRegistryConfigStatus`, restricted to the fields the
embedded code reads. -/
structure ConfigStatus where
  storageManaged : Bool
  storage : StorageCfg
  conditions : List Condition
  observedGeneration : Int
deriving DecidableEq, Repr

/-- `imageregistryv1.Config`: the reconciled resource. -/
structure Config where
  metadata : ObjectMeta
  spec : ConfigSpec
  status : ConfigStatus
deriving DecidableEq, Repr

/-- `util.UpdateCondition` applied to a whole resource. -/
def setCond (now : Nat) (t : String) (s : CondStatus) (r m : String)
    (cr : Config) : Config :=
  { cr with status.conditions := updateCondition now t s r m cr.status.conditions }

/-! ## Errors -/

/-- Go `error` values that flow through the embedded code.  Type assertions in
the source (`*errNameNotAvailable`, `*errDoesNotExist`, `awserr.Error`,
`azblob.StorageError`, `permanentError`, the `storage.ErrStorageNotConfigured`
sentinel) become constructor matches. -/
inductive Err
  | str (s : String)
  | errStorageNotConfigured
  | permanent (reason : String) (cause : Err)
  | nameNotAvailable (accountName message : String)
  | doesNotExist (cause : Err)
  | aws (code message : String)
  | azStorage (serviceCode message : String)
deriving DecidableEq, Repr

/-- The `Error()` method of each modelled error type. -/
def Err.message : Err → String
  | .str s => s
  | .errStorageNotConfigured => "storage backend not configured"
  | .permanent _ cause => cause.message
  | .nameNotAvailable name msg =>
      "storage account name " ++ name ++ " is not available: " ++ msg
  | .doesNotExist cause => cause.message
  | .aws code msg => code ++ ": " ++ msg
  | .azStorage code msg => code ++ ": " ++ msg

/-- `if _, ok := err.(permanentError); ok`. -/
def Err.isPermanent : Err → Bool
  | .permanent _ _ => true
  | _ => false

/-- Result of a lister `Get`: the object, a not-found error, or another error. -/
inductive GetRes (α : Type)
  | found (a : α)
  | notFound
  | err (e : Err)

/-! ## Provider-call / condition trace events -/

/-- Observable events of one driver operation: each provider API call with its
outcome, and each condition update. -/
inductive Ev
  | azCreateAccount (name : String) (r : Option Err)
  | azGetKey (r : Option Err)
  | azCreateContainer (r : Option Err)
  | azDeleteContainer (r : Option Err)
  | azDeleteAccount (r : Option Err)
  | azGetProperties (r : Option Err)
  | s3HeadBucket (r : Option Err)
  | s3CreateBucket (name : String) (r : Option Err)
  | s3Wait (r : Option Err)
  | s3PutPublicAccessBlock (r : Option Err)
  | s3PutBucketTagging (r : Option Err)
  | s3PutBucketEncryption (r : Option Err)
  | s3PutLifecycle (r : Option Err)
  | s3DeleteBucket (r : Option Err)
  | s3WaitNotExists (r : Option Err)
  | cond (ctype : String) (st : CondStatus) (reason : String)
deriving DecidableEq, Repr

/-- Whether an event is a provider API call (as opposed to a condition write). -/
def Ev.isProviderCall : Ev → Bool
  | .cond _ _ _ => false
  | _ => true

/-- Whether an event is a provider API call that succeeded. -/
def Ev.isProviderSuccess : Ev → Bool
  | .azCreateAccount _ r => r = none
  | .azGetKey r => r = none
  | .azCreateContainer r => r = none
  | .azDeleteContainer r => r = none
  | .azDeleteAccount r => r = none
  | .azGetProperties r => r = none
  | .s3HeadBucket r => r = none
  | .s3CreateBucket _ r => r = none
  | .s3Wait r => r = none
  | .s3PutPublicAccessBlock r => r = none
  | .s3PutBucketTagging r => r = none
  | .s3PutBucketEncryption r => r = none
  | .s3PutLifecycle r => r = none
  | .s3DeleteBucket r => r = none
  | .s3WaitNotExists r => r = none
  | .cond _ _ _ => false

/-- Whether an event is an Azure `createStorageAccount` call. -/
def Ev.isAzCreateAccount : Ev → Bool
  | .azCreateAccount _ _ => true
  | _ => false

/-- Whether an event is an S3 `CreateBucket` call. -/
def Ev.isS3CreateBucket : Ev → Bool
  | .s3CreateBucket _ _ => true
  | _ => false

/-- Common result shape of a driver operation: the updated driver config, the
updated resource, the operation's return value, and the event trace. -/
structure OpOut (δ ρ : Type) where
  cfg : δ
  cr : Config
  res : ρ
  trace : List Ev

/-! ## The Azure driver (src/unnamed/part_000) -/

/-- Condition type `imageregistryv1.StorageExists`. -/
def condTypeStorageExists : String := "StorageExists"

def storageExistsReasonNotConfigured : String := "StorageNotConfigured"
def storageExistsReasonConfigError : String := "ConfigError"
def storageExistsReasonUserManaged : String := "UserManaged"
def storageExistsReasonAzureError : String := "AzureError"
def storageExistsReasonContainerNotFound : String := "ContainerNotFound"
def storageExistsReasonContainerExists : String := "ContainerExists"
def storageExistsReasonContainerDeleted : String := "ContainerDeleted"
def storageExistsReasonAccountDeleted : String := "AccountDeleted"

/-- The fields of the `Azure` credentials struct that the driver logic reads
(the client plumbing fields are consumed only by the abstracted SDK client). -/
structure AzureCreds where
  accountKey : String
  resourceGroup : String
  region : String
deriving DecidableEq, Repr

/-- `storageAccountInvalidCharRe.ReplaceAllString(s, "")`: strip every
character outside `[0-9A-Za-z]`. -/
def stripAccountInvalidChars (s : String) : String :=
  String.mk (s.data.filter fun c => c.isAlphanum)

/-- The fallback of `generateAccountName`: an empty stripped name is replaced
by `"imageregistry"`. -/
def accountNameBase (infrastructureName : String) : String :=
  if stripAccountInvalidChars infrastructureName = "" then "imageregistry"
  else stripAccountInvalidChars infrastructureName

/-- The truncation `if len(prefix) > 24-5 { prefix = prefix[:24-5] }`.  The Go
byte slice agrees with character truncation because the stripped name is
ASCII-only. -/
def accountNameTrunc (p : String) : String :=
  if p.length > 24 - 5 then String.mk (p.data.take (24 - 5)) else p

/-- `generateAccountName`.  The call `rand.String(5)` (k8s apimachinery, a
5-character alphanumeric random string) is passed in as `suffix`; the final
`strings.ToLower` is `Char.toLower` on each (ASCII) character. -/
def generateAccountName (infrastructureName : String) (suffix : String) : String :=
  String.mk (((accountNameTrunc (accountNameBase infrastructureName)) ++ suffix).data.map
    Char.toLower)

/-- Oracle for the external calls made by the Azure driver operations.  Calls
that occur at several source locations get one field per call site; the
creation attempts of the naming-retry loop are indexed by attempt number. -/
structure AzureEnv where
  now : Nat
  /-- `GetConfig` (secret lookup). -/
  getConfig : Except Err AzureCreds
  /-- `d.storageAccountsClient(cfg)`. -/
  accountsClient : Option Err
  /-- `util.GetInfrastructure(...)`, projected to `Status.InfrastructureName`. -/
  infraName : Except Err String
  /-- `rand.String(5)` for attempt `i` of the naming loop. -/
  randSuffix : Nat → String
  /-- `createStorageAccount` for attempt `i` of the naming loop with the given
  generated name. -/
  createAccountAt : Nat → String → Option Err
  /-- `createStorageAccount` in the branch where an account name was already
  specified. -/
  createAccountProvided : String → Option Err
  /-- `getAccountPrimaryKey` in the container-creation branch of
  `CreateStorage`. -/
  getKeyCont : Except Err String
  /-- `createStorageContainer`. -/
  createContainer : Option Err
  /-- `getAccountPrimaryKey` in `StorageExists`. -/
  getKeyExists : Except Err String
  /-- `azblob.NewSharedKeyCredential`. -/
  sharedKeyCred : Option Err
  /-- `url.Parse` of the blob endpoint. -/
  urlParse : Option Err
  /-- `container.GetProperties`. -/
  getProperties : Option Err
  /-- `getAccountPrimaryKey` in `RemoveStorage`. -/
  getKeyRemove : Except Err String
  /-- `deleteStorageContainer`. -/
  deleteContainer : Option Err
  /-- `storageAccountsClient.Delete`. -/
  deleteAccount : Option Err

/-- `(d *driver) StorageChanged`: `!reflect.DeepEqual(cr.Status.Storage.Azure,
cr.Spec.Storage.Azure)`.  A pure function of the resource. -/
def azureStorageChanged (cr : Config) : Bool :=
  if cr.status.storage.azure ≠ cr.spec.storage.azure then true else false

/-- Tail of the Azure `StorageExists` once an account key is in hand: shared
key credential, URL parse, and the `GetProperties` probe of the container. -/
def azureStorageExistsProbe (env : AzureEnv) (d : AzureCfg) (cr : Config)
    (tr : List Ev) : OpOut AzureCfg (Bool × Option Err) :=
  match env.sharedKeyCred with
  | some e =>
    ⟨d, setCond env.now condTypeStorageExists .ctUnknown storageExistsReasonAzureError
          ("Unable to create shared key credential: " ++ e.message) cr,
      (false, some e), tr⟩
  | none =>
    match env.urlParse with
    | some e =>
      ⟨d, setCond env.now condTypeStorageExists .ctUnknown storageExistsReasonAzureError
            ("Unable to parse blob URL: " ++ e.message) cr, (false, some e), tr⟩
    | none =>
      match env.getProperties with
      | some (Err.azStorage "ContainerNotFound" m) =>
        ⟨d, setCond env.now condTypeStorageExists .ctFalse
              storageExistsReasonContainerNotFound "Container does not exist" cr,
          (false, none),
          tr ++ [Ev.azGetProperties (some (Err.azStorage "ContainerNotFound" m))]⟩
      | some e =>
        ⟨d, setCond env.now condTypeStorageExists .ctUnknown storageExistsReasonAzureError
              ("Unable to get the storage container: " ++ e.message) cr,
          (false, some (.str ("unable to get the storage container " ++ d.container
                                ++ ": " ++ e.message))),
          tr ++ [Ev.azGetProperties (some e)]⟩
      | none =>
        ⟨d, setCond env.now condTypeStorageExists .ctTrue
              storageExistsReasonContainerExists "Storage container exists" cr,
          (true, none), tr ++ [Ev.azGetProperties none]⟩

/-- `(d *driver) StorageExists` of the Azure driver. -/
def azureStorageExists (env : AzureEnv) (d : AzureCfg) (cr : Config) :
    OpOut AzureCfg (Bool × Option Err) :=
  if d.accountName = "" ∨ d.container = "" then
    ⟨d, setCond env.now condTypeStorageExists .ctFalse storageExistsReasonNotConfigured
          "Storage is not configured" cr, (false, none), []⟩
  else
    match env.getConfig with
    | .error e =>
      ⟨d, setCond env.now condTypeStorageExists .ctUnknown storageExistsReasonConfigError
            ("Unable to get configuration: " ++ e.message) cr, (false, some e), []⟩
    | .ok cfg =>
      -- `key := cfg.AccountKey; if key == "" { client; getAccountPrimaryKey }`
      if cfg.accountKey = "" then
        match env.accountsClient with
        | some e =>
          ⟨d, setCond env.now condTypeStorageExists .ctUnknown storageExistsReasonAzureError
                ("Unable to get accounts client: " ++ e.message) cr, (false, some e), []⟩
        | none =>
          match env.getKeyExists with
          | .error e =>
            ⟨d, setCond env.now condTypeStorageExists .ctUnknown storageExistsReasonAzureError
                  ("Unable to get account primary keys: " ++ e.message) cr,
              (false, some e), [Ev.azGetKey (some e)]⟩
          | .ok _ => azureStorageExistsProbe env d cr [Ev.azGetKey none]
      else azureStorageExistsProbe env d cr []

/-- How the Azure account-creation retry loop terminated. -/
inductive AzureLoopExit
  | success (attempt : Nat)
  | failed (e : Err)
  | exhausted
deriving DecidableEq, Repr

/-- State after running (part of) the Azure account-creation retry loop. -/
structure AzureLoopOut where
  d : AzureCfg
  cr : Config
  lastErr : Option Err
  exit : AzureLoopExit
  trace : List Ev
deriving Repr

/-- The `for i := 0; i < maxAttempts; i++` account-creation loop of the Azure
`CreateStorage` (IPI branch with no account name configured).  `i` is the
current attempt index and `fuel` the number of attempts left. -/
def azureCreateLoop (env : AzureEnv) (infra : String) (d : AzureCfg) (cr : Config)
    (lastErr : Option Err) : Nat → Nat → AzureLoopOut
  | _, 0 => ⟨d, cr, lastErr, .exhausted, []⟩
  | i, fuel + 1 =>
    let accountName := generateAccountName infra (env.randSuffix i)
    match env.createAccountAt i accountName with
    | some e =>
      match e with
      | .nameNotAvailable n m =>
        let out := azureCreateLoop env infra d cr (some (.nameNotAvailable n m)) (i + 1) fuel
        { out with trace := Ev.azCreateAccount accountName (some e) :: out.trace }
      | _ => ⟨d, cr, lastErr, .failed e, [Ev.azCreateAccount accountName (some e)]⟩
    | none =>
      let d' : AzureCfg := { d with accountName := accountName }
      let cr' := { cr with
        status.storageManaged := true,
        status.storage.azure := some d',
        spec.storage.azure := some d' }
      ⟨d', cr', lastErr, .success i, [Ev.azCreateAccount accountName none]⟩

/-- `(d *driver) CreateStorage` of the Azure driver. -/
def azureCreateStorage (env : AzureEnv) (d : AzureCfg) (cr : Config) :
    OpOut AzureCfg (Option Err) :=
  match env.getConfig with
  | .error e =>
    ⟨d, setCond env.now condTypeStorageExists .ctUnknown storageExistsReasonConfigError
          ("Unable to get configuration: " ++ e.message) cr, some e, []⟩
  | .ok cfg =>
    if cfg.accountKey ≠ "" then
      -- UPI
      if d.accountName = "" then
        ⟨d, setCond env.now condTypeStorageExists .ctFalse storageExistsReasonNotConfigured
              "Storage account key is provided, but account name is not specified" cr,
          none, []⟩
      else if d.container = "" then
        ⟨d, setCond env.now condTypeStorageExists .ctFalse storageExistsReasonNotConfigured
              "Storage account is provided, but container is not specified" cr, none, []⟩
      else
        let cr := { cr with
          status.storageManaged := false,
          status.storage.azure := some d }
        ⟨d, setCond env.now condTypeStorageExists .ctTrue storageExistsReasonUserManaged
              "Storage is managed by the user" cr, none, []⟩
    else
      -- IPI
      match env.accountsClient with
      | some e =>
        ⟨d, setCond env.now condTypeStorageExists .ctUnknown storageExistsReasonAzureError
              ("Unable to get accounts client: " ++ e.message) cr, some e, []⟩
      | none =>
        -- account phase: either generate-and-retry or create the provided name
        let accountPhase : OpOut AzureCfg (Option Err) :=
          if d.accountName = "" then
            match env.infraName with
            | .error e =>
              ⟨d, setCond env.now condTypeStorageExists .ctFalse storageExistsReasonConfigError
                    ("Unable to get infrastructure resource: " ++ e.message) cr, some e, []⟩
            | .ok infra =>
              let out := azureCreateLoop env infra d cr none 0 10
              match out.exit with
              | .failed e => ⟨out.d, out.cr, some e, out.trace⟩
              | _ =>
                if out.d.accountName = "" then
                  ⟨out.d,
                    setCond env.now condTypeStorageExists .ctFalse storageExistsReasonAzureError
                      ("Unable to create storage account: "
                        ++ (out.lastErr.map Err.message).getD "") out.cr,
                    some (.str ("attmpts to create storage account failed, last error: "
                      ++ (out.lastErr.map Err.message).getD "")), out.trace⟩
                else ⟨out.d, out.cr, none, out.trace⟩
          else
            match env.createAccountProvided d.accountName with
            | some e =>
              match e with
              | .nameNotAvailable _ _ =>
                -- already-existing account: error swallowed, status recorded
                ⟨d, { cr with status.storage.azure := some d }, none,
                  [Ev.azCreateAccount d.accountName (some e)]⟩
              | _ =>
                ⟨d, setCond env.now condTypeStorageExists .ctUnknown
                      storageExistsReasonAzureError
                      ("Unable to create storage account: " ++ e.message) cr, some e,
                  [Ev.azCreateAccount d.accountName (some e)]⟩
            | none =>
              ⟨d, { cr with status.storage.azure := some d }, none,
                [Ev.azCreateAccount d.accountName none]⟩
        match accountPhase with
        | ⟨d1, cr1, some e, tr⟩ => ⟨d1, cr1, some e, tr⟩
        | ⟨d1, cr1, none, tr⟩ =>
          -- container phase
          if d1.container = "" then
            match env.getKeyCont with
            | .error e =>
              ⟨d1, setCond env.now condTypeStorageExists .ctFalse storageExistsReasonAzureError
                    ("Unable to get account primary key: " ++ e.message) cr1, some e,
                tr ++ [Ev.azGetKey (some e)]⟩
            | .ok _ =>
              match env.createContainer with
              | some e =>
                ⟨d1, setCond env.now condTypeStorageExists .ctUnknown
                      storageExistsReasonAzureError
                      ("Unable to create storage container: " ++ e.message) cr1,
                  some (.str ("unable to create storage container: " ++ e.message)),
                  tr ++ [Ev.azGetKey none, Ev.azCreateContainer (some e)]⟩
              | none =>
                let d2 : AzureCfg := { d1 with container := "image-registry" }
                let cr2 := { cr1 with
                  status.storageManaged := true,
                  status.storage.azure := some d2,
                  spec.storage.azure := some d2 }
                ⟨d2, setCond env.now condTypeStorageExists .ctTrue
                      storageExistsReasonContainerExists "Storage container exists" cr2,
                  none, tr ++ [Ev.azGetKey none, Ev.azCreateContainer none]⟩
          else
            ⟨d1, setCond env.now condTypeStorageExists .ctTrue
                  storageExistsReasonContainerExists "Storage container exists" cr1,
              none, tr⟩

/-- `cr.Spec.Storage.Azure.AccountName = ""` (a nil pointer would panic in Go;
the assignment is modelled on the non-nil option). -/
def clearAzureAccountName (o : Option AzureCfg) : Option AzureCfg :=
  o.map fun a => { a with accountName := "" }

/-- `cr.…Storage.Azure.Container = ""`. -/
def clearAzureContainer (o : Option AzureCfg) : Option AzureCfg :=
  o.map fun a => { a with container := "" }

/-- `(d *driver) RemoveStorage` of the Azure driver. -/
def azureRemoveStorage (env : AzureEnv) (d : AzureCfg) (cr : Config) :
    OpOut AzureCfg (Bool × Option Err) :=
  if cr.status.storageManaged ≠ true then
    ⟨d, cr, (false, none), []⟩
  else if d.accountName = "" then
    ⟨d, setCond env.now condTypeStorageExists .ctFalse storageExistsReasonNotConfigured
          "Storage is not configured" cr, (false, none), []⟩
  else
    match env.getConfig with
    | .error e =>
      ⟨d, setCond env.now condTypeStorageExists .ctUnknown storageExistsReasonConfigError
            ("Unable to get configuration: " ++ e.message) cr, (false, some e), []⟩
    | .ok _ =>
      match env.accountsClient with
      | some e =>
        ⟨d, setCond env.now condTypeStorageExists .ctUnknown storageExistsReasonAzureError
              ("Unable to get accounts client: " ++ e.message) cr, (false, some e), []⟩
      | none =>
        -- container deletion phase
        let contPhase : Option (OpOut AzureCfg (Bool × Option Err)) :=
          if d.container ≠ "" then
            match env.getKeyRemove with
            | .error (Err.doesNotExist e) =>
              let d' : AzureCfg := { d with accountName := "" }
              let cr' := { cr with
                spec.storage.azure := clearAzureAccountName cr.spec.storage.azure,
                status.storage.azure := clearAzureAccountName cr.status.storage.azure }
              some ⟨d', setCond env.now condTypeStorageExists .ctFalse
                      storageExistsReasonContainerNotFound
                      ("Container has been already deleted: " ++ (Err.doesNotExist e).message)
                      cr', (false, none),
                    [Ev.azGetKey (some (Err.doesNotExist e))]⟩
            | .error e =>
              some ⟨d, setCond env.now condTypeStorageExists .ctUnknown
                      storageExistsReasonAzureError
                      ("Unable to get account primary keys: " ++ e.message) cr,
                    (false, some e), [Ev.azGetKey (some e)]⟩
            | .ok _ =>
              match env.deleteContainer with
              | some e =>
                some ⟨d, setCond env.now condTypeStorageExists .ctUnknown
                        storageExistsReasonAzureError
                        ("Unable to delete storage container: " ++ e.message) cr,
                      (false, some e), [Ev.azGetKey none, Ev.azDeleteContainer (some e)]⟩
              | none => none
          else none
        match contPhase with
        | some out => out
        | none =>
          -- state after a (possibly skipped or successful) container deletion
          let afterCont : AzureCfg × Config × List Ev :=
            if d.container ≠ "" then
              let d' : AzureCfg := { d with container := "" }
              let cr' := setCond env.now condTypeStorageExists .ctFalse
                storageExistsReasonContainerDeleted "Storage container has been deleted"
                { cr with
                  spec.storage.azure := clearAzureContainer cr.spec.storage.azure,
                  status.storage.azure := clearAzureContainer cr.status.storage.azure }
              (d', cr', [Ev.azGetKey none, Ev.azDeleteContainer none])
            else (d, cr, [])
          match afterCont with
          | (d1, cr1, tr) =>
            match env.deleteAccount with
            | some e =>
              ⟨d1, setCond env.now condTypeStorageExists .ctFalse storageExistsReasonAzureError
                    ("Unable to delete storage account: " ++ e.message) cr1, (false, some e),
                tr ++ [Ev.azDeleteAccount (some e)]⟩
            | none =>
              let d2 : AzureCfg := { d1 with accountName := "" }
              let cr2 := setCond env.now condTypeStorageExists .ctFalse
                storageExistsReasonAccountDeleted "Storage account has been deleted"
                { cr1 with
                  spec.storage.azure := clearAzureAccountName cr1.spec.storage.azure,
                  status.storage.azure := clearAzureAccountName cr1.status.storage.azure }
              ⟨d2, cr2, (false, none), tr ++ [Ev.azDeleteAccount none]⟩

/-! ## The S3 driver (src/unnamed/part_001) -/

/-- `imageregistryv1.ImageRegistryName`. -/
def imageRegistryName : String := "image-registry"

def condTypePublicAccessBlocked : String := "StoragePublicAccessBlocked"
def condTypeStorageTagged : String := "StorageTagged"
def condTypeStorageEncrypted : String := "StorageEncrypted"
def condTypeCleanupEnabled : String := "StorageIncompleteUploadCleanupEnabled"

/-- `strings.Replace(s, "-", "", -1)`. -/
def stripDashes (s : String) : String :=
  String.mk (s.data.filter fun c => c ≠ '-')

/-- The generated S3 bucket name:
`fmt.Sprintf("%s-%s-%s-%s", ImageRegistryName, region, infraName stripped of
dashes, a fresh UUID stripped of dashes)[0:62]`.  (The Go byte slice `[0:62]`
panics when the formatted string is shorter than 62 bytes; the model
truncates.  All components are ASCII, so byte and character truncation
agree.) -/
def s3GenerateBucketName (region infraName uuidStr : String) : String :=
  String.mk ((imageRegistryName ++ "-" ++ region ++ "-" ++ stripDashes infraName
    ++ "-" ++ stripDashes uuidStr).data.take 62)

/-- Oracle for the external calls of the S3 driver operations.  The bucket
creation attempts of the naming-retry loop and the UUIDs generated for them
are indexed by attempt number. -/
structure S3Env where
  now : Nat
  /-- `GetConfig` inside `getS3Service`: its error, or the platform region it
  yields.  (The package-level `s3Service` memoization variable is never
  assigned — the `s3Service :=` on the last line of `getS3Service` declares a
  shadowing local — so every call runs the full path.) -/
  getS3 : Except Err String
  /-- `util.GetInfrastructure`, projected to `Status.InfrastructureName`. -/
  infraName : Except Err String
  /-- `svc.HeadBucket` (via `bucketExists`). -/
  headBucket : Option Err
  /-- `uuid.NewUUID()` for attempt `i` of the naming loop. -/
  uuid : Nat → String
  /-- `svc.CreateBucket` for attempt `i` of the naming loop with the given
  bucket name. -/
  createBucket : Nat → String → Option Err
  /-- `svc.WaitUntilBucketExists`. -/
  wait : Option Err
  /-- `svc.PutPublicAccessBlock`. -/
  putPublicAccessBlock : Option Err
  /-- `svc.PutBucketTagging`. -/
  putBucketTagging : Option Err
  /-- `svc.PutBucketEncryption`. -/
  putBucketEncryption : Option Err
  /-- `svc.PutBucketLifecycleConfiguration`. -/
  putLifecycle : Option Err
  /-- `svc.DeleteBucket`. -/
  deleteBucket : Option Err
  /-- `svc.WaitUntilBucketNotExists`. -/
  waitNotExists : Option Err

/-- `(d *driver) getS3Service`: fails when `GetConfig` (or session creation)
fails; otherwise defaults an empty `d.Config.Region` from the platform
config. -/
def getS3Service (env : S3Env) (d : S3Cfg) : S3Cfg × Option Err :=
  match env.getS3 with
  | .error e => (d, some e)
  | .ok cfgRegion =>
    (if d.region = "" then { d with region := cfgRegion } else d, none)

/-- `(d *driver) bucketExists`: no-op on an empty name, else `getS3Service`
followed by `HeadBucket`. -/
def s3BucketExists (env : S3Env) (d : S3Cfg) (bucketName : String) :
    S3Cfg × Option Err × List Ev :=
  if bucketName = "" then (d, none, [])
  else
    match getS3Service env d with
    | (d', some e) => (d', some e, [])
    | (d', none) => (d', env.headBucket, [Ev.s3HeadBucket env.headBucket])

/-- The AWS error codes the S3 driver treats as "bucket not there":
`s3.ErrCodeNoSuchBucket`, `"Forbidden"`, `"NotFound"`. -/
def s3IsNotFoundCode (code : String) : Bool :=
  code == "NoSuchBucket" || code == "Forbidden" || code == "NotFound"

/-- `(d *driver) StorageExists` of the S3 driver.  Note that the empty-bucket
branch returns without touching the conditions. -/
def s3StorageExists (env : S3Env) (d : S3Cfg) (cr : Config) :
    OpOut S3Cfg (Bool × Option Err) :=
  if d.bucket = "" then ⟨d, cr, (false, none), []⟩
  else
    match s3BucketExists env d d.bucket with
    | (d', some e, tr) =>
      match e with
      | .aws code m =>
        if s3IsNotFoundCode code then
          ⟨d', setCond env.now condTypeStorageExists .ctFalse code (Err.aws code m).message cr,
            (false, none), tr⟩
        else
          ⟨d', setCond env.now condTypeStorageExists .ctUnknown "Unknown Error Occurred"
                (Err.aws code m).message cr, (false, some (.aws code m)), tr⟩
      | _ =>
        ⟨d', setCond env.now condTypeStorageExists .ctUnknown "Unknown Error Occurred"
              e.message cr, (false, some e), tr⟩
    | (d', none, tr) =>
      ⟨d', setCond env.now condTypeStorageExists .ctTrue "S3 Bucket Exists" "" cr,
        (true, none), tr⟩

/-- `(d *driver) StorageChanged` of the S3 driver: structural inequality of
the mirrors, but it additionally flips the `StorageExists` condition to
Unknown when a change is detected. -/
def s3StorageChanged (now : Nat) (cr : Config) : Bool × Config :=
  if cr.status.storage.s3 ≠ cr.spec.storage.s3 then
    (true, setCond now condTypeStorageExists .ctUnknown "S3 Configuration Changed"
      "S3 storage is in an unknown state" cr)
  else (false, cr)

/-- The ways one iteration of the S3 creation loop can leave the loop. -/
inductive S3BreakKind
  /-- `CreateBucket` returned nil. -/
  | created
  /-- `BucketAlreadyExists` on a user-supplied name: the `break` of the switch
  arm only exits the switch, so the iteration still runs the success tail. -/
  | alreadyExistsUserName
  /-- a non-`awserr` creation failure falls through the type assertion and
  also reaches the success tail. -/
  | nonAwsErr (e : Err)
deriving DecidableEq, Repr

/-- How the S3 bucket-creation retry loop terminated. -/
inductive S3LoopExit
  | broke (attempt : Nat) (kind : S3BreakKind)
  | failed (e : Err)
  | exhausted
deriving DecidableEq, Repr

/-- State after running (part of) the S3 bucket-creation retry loop. -/
structure S3LoopOut where
  d : S3Cfg
  cr : Config
  generatedName : Bool
  exit : S3LoopExit
  trace : List Ev
deriving Repr

/-- The `for i := 0; i < 5000; i++` bucket-creation loop of the S3
`CreateStorage`.  `i` is the current attempt index, `fuel` the number of
attempts left. -/
def s3CreateLoop (env : S3Env) (infra : String) :
    S3Cfg → Config → Bool → Nat → Nat → S3LoopOut
  | d, cr, generatedName, _, 0 => ⟨d, cr, generatedName, .exhausted, []⟩
  | d, cr, generatedName, i, fuel + 1 =>
    let dg : S3Cfg :=
      if d.bucket = "" then
        { d with bucket := s3GenerateBucketName d.region infra (env.uuid i) }
      else d
    let gn : Bool := if d.bucket = "" then true else generatedName
    match env.createBucket i dg.bucket with
    | some (Err.aws "BucketAlreadyExists" m) =>
      if dg.bucket ≠ "" ∧ gn = false then
        -- switch-arm `break`: records the condition, then falls through to
        -- the success tail of the iteration
        let cr1 := setCond env.now condTypeStorageExists .ctFalse "Unable to Access Bucket"
          "The bucket exists, but we do not have permission to access it" cr
        let cr2 := setCond env.now condTypeStorageExists .ctTrue "Creation Successful"
          "S3 bucket was successfully created"
          { cr1 with
            status.storageManaged := true,
            status.storage.s3 := some dg,
            spec.storage.s3 := some dg }
        ⟨dg, cr2, gn, .broke i .alreadyExistsUserName,
          [Ev.s3CreateBucket dg.bucket (some (Err.aws "BucketAlreadyExists" m)),
           Ev.cond condTypeStorageExists .ctFalse "Unable to Access Bucket",
           Ev.cond condTypeStorageExists .ctTrue "Creation Successful"]⟩
      else
        let out := s3CreateLoop env infra { dg with bucket := "" } cr gn (i + 1) fuel
        { out with
          trace := Ev.s3CreateBucket dg.bucket (some (Err.aws "BucketAlreadyExists" m))
            :: out.trace }
    | some (Err.aws code m) =>
      ⟨dg, setCond env.now condTypeStorageExists .ctFalse code (Err.aws code m).message cr,
        gn, .failed (.aws code m),
        [Ev.s3CreateBucket dg.bucket (some (Err.aws code m)),
         Ev.cond condTypeStorageExists .ctFalse code]⟩
    | some e =>
      -- non-awserr failure: the `if aerr, ok := err.(awserr.Error); ok` guard
      -- has no else branch, so control reaches the success tail
      let cr2 := setCond env.now condTypeStorageExists .ctTrue "Creation Successful"
        "S3 bucket was successfully created"
        { cr with
          status.storageManaged := true,
          status.storage.s3 := some dg,
          spec.storage.s3 := some dg }
      ⟨dg, cr2, gn, .broke i (.nonAwsErr e),
        [Ev.s3CreateBucket dg.bucket (some e),
         Ev.cond condTypeStorageExists .ctTrue "Creation Successful"]⟩
    | none =>
      let cr2 := setCond env.now condTypeStorageExists .ctTrue "Creation Successful"
        "S3 bucket was successfully created"
        { cr with
          status.storageManaged := true,
          status.storage.s3 := some dg,
          spec.storage.s3 := some dg }
      ⟨dg, cr2, gn, .broke i .created,
        [Ev.s3CreateBucket dg.bucket none,
         Ev.cond condTypeStorageExists .ctTrue "Creation Successful"]⟩

/-- Condition reason for a failed hardening call: the AWS error code, or
`"Unknown Error Occurred"` for a non-`awserr` failure. -/
def condFailReason : Err → String
  | .aws code _ => code
  | _ => "Unknown Error Occurred"

/-- Tail of the S3 `CreateStorage` after the bucket is settled:
`WaitUntilBucketExists` plus the four best-effort hardening steps (public
access block, tagging, default encryption, multipart-upload cleanup), each
guarded by `cr.Status.StorageManaged`. -/
def s3CreateFinish (env : S3Env) (_infra : String) (d : S3Cfg) (cr : Config)
    (tr : List Ev) : OpOut S3Cfg (Option Err) :=
  match env.wait with
  | some e =>
    let cr' := match e with
      | .aws code m =>
        setCond env.now condTypeStorageExists .ctFalse code (Err.aws code m).message cr
      | _ => cr
    let trCond := match e with
      | .aws code _ => [Ev.cond condTypeStorageExists .ctFalse code]
      | _ => []
    ⟨d, cr', some e, tr ++ [Ev.s3Wait (some e)] ++ trCond⟩
  | none =>
    let tr0 := tr ++ [Ev.s3Wait none]
    -- block public access
    let pab : Config × List Ev :=
      if cr.status.storageManaged then
        match env.putPublicAccessBlock with
        | some e =>
          (setCond env.now condTypePublicAccessBlocked .ctFalse (condFailReason e)
            e.message cr,
           tr0 ++ [Ev.s3PutPublicAccessBlock (some e),
                   Ev.cond condTypePublicAccessBlocked .ctFalse (condFailReason e)])
        | none =>
          (setCond env.now condTypePublicAccessBlocked .ctTrue "Public Access Block Successful"
            "Public access to the S3 bucket and its contents have been successfully blocked."
            { cr with status.storage.s3 := some d, spec.storage.s3 := some d },
           tr0 ++ [Ev.s3PutPublicAccessBlock none,
                   Ev.cond condTypePublicAccessBlocked .ctTrue "Public Access Block Successful"])
      else (cr, tr0)
    match pab with
    | (cr1, tr1) =>
      -- tag the bucket (the tag key is derived from `infra`)
      let tag : Config × List Ev :=
        if cr1.status.storageManaged then
          match env.putBucketTagging with
          | some e =>
            (setCond env.now condTypeStorageTagged .ctFalse (condFailReason e) e.message cr1,
             tr1 ++ [Ev.s3PutBucketTagging (some e),
                     Ev.cond condTypeStorageTagged .ctFalse (condFailReason e)])
          | none =>
            (setCond env.now condTypeStorageTagged .ctTrue "Tagging Successful"
              "Tags were successfully applied to the S3 bucket" cr1,
             tr1 ++ [Ev.s3PutBucketTagging none,
                     Ev.cond condTypeStorageTagged .ctTrue "Tagging Successful"])
        else (cr1, tr1)
      match tag with
      | (cr2, tr2) =>
        -- default encryption
        let enc : S3Cfg × Config × List Ev :=
          if cr2.status.storageManaged then
            let encryptionType := if d.keyID ≠ "" then "aws:kms" else "AES256"
            match env.putBucketEncryption with
            | some e =>
              (d, setCond env.now condTypeStorageEncrypted .ctFalse (condFailReason e)
                e.message cr2,
               tr2 ++ [Ev.s3PutBucketEncryption (some e),
                       Ev.cond condTypeStorageEncrypted .ctFalse (condFailReason e)])
            | none =>
              let d' : S3Cfg := { d with encrypt := true }
              (d', setCond env.now condTypeStorageEncrypted .ctTrue "Encryption Successful"
                ("Default " ++ encryptionType
                  ++ " encryption was successfully enabled on the S3 bucket")
                { cr2 with status.storage.s3 := some d', spec.storage.s3 := some d' },
               tr2 ++ [Ev.s3PutBucketEncryption none,
                       Ev.cond condTypeStorageEncrypted .ctTrue "Encryption Successful"])
          else
            (d,
             if cr2.status.storage.s3 ≠ some d then
               { cr2 with status.storage.s3 := some d }
             else cr2,
             tr2)
        match enc with
        | (d3, cr3, tr3) =>
          -- incomplete multipart upload cleanup
          let cln : Config × List Ev :=
            if cr3.status.storageManaged then
              match env.putLifecycle with
              | some e =>
                (setCond env.now condTypeCleanupEnabled .ctFalse (condFailReason e)
                  e.message cr3,
                 tr3 ++ [Ev.s3PutLifecycle (some e),
                         Ev.cond condTypeCleanupEnabled .ctFalse (condFailReason e)])
              | none =>
                (setCond env.now condTypeCleanupEnabled .ctTrue "Enable Cleanup Successful"
                  "Default cleanup of incomplete multipart uploads after one (1) day was successfully enabled"
                  cr3,
                 tr3 ++ [Ev.s3PutLifecycle none,
                         Ev.cond condTypeCleanupEnabled .ctTrue "Enable Cleanup Successful"])
            else (cr3, tr3)
          match cln with
          | (cr4, tr4) => ⟨d3, cr4, none, tr4⟩

/-- `(d *driver) CreateStorage` of the S3 driver. -/
def s3CreateStorage (env : S3Env) (d : S3Cfg) (cr : Config) : OpOut S3Cfg (Option Err) :=
  match getS3Service env d with
  | (d0, some e) => ⟨d0, cr, some e, []⟩
  | (d0, none) =>
    match env.infraName with
    | .error e => ⟨d0, cr, some e, []⟩
    | .ok infra =>
      -- probe a user-supplied bucket name first
      let head : (S3Cfg × Config × Bool × List Ev) ⊕ OpOut S3Cfg (Option Err) :=
        if d0.bucket ≠ "" then
          match s3BucketExists env d0 d0.bucket with
          | (d1, some e, tr) =>
            match e with
            | .aws code m =>
              if s3IsNotFoundCode code then
                .inl (d1,
                  setCond env.now condTypeStorageExists .ctFalse code (Err.aws code m).message cr,
                  false,
                  tr ++ [Ev.cond condTypeStorageExists .ctFalse code])
              else
                .inr ⟨d1, setCond env.now condTypeStorageExists .ctUnknown
                        "Unknown Error Occurred" (Err.aws code m).message cr,
                      some (.aws code m),
                      tr ++ [Ev.cond condTypeStorageExists .ctUnknown "Unknown Error Occurred"]⟩
            | _ =>
              .inr ⟨d1, setCond env.now condTypeStorageExists .ctUnknown
                      "Unknown Error Occurred" e.message cr, some e,
                    tr ++ [Ev.cond condTypeStorageExists .ctUnknown "Unknown Error Occurred"]⟩
          | (d1, none, tr) => .inl (d1, cr, true, tr)
        else .inl (d0, cr, false, [])
      match head with
      | .inr out => out
      | .inl (d1, cr1, bExists, tr1) =>
        if d1.bucket ≠ "" ∧ bExists then
          let cr2 := setCond env.now condTypeStorageExists .ctTrue "S3 Bucket Exists"
            "User supplied S3 bucket exists and is accessible"
            { cr1 with status.storage.s3 := some d1 }
          s3CreateFinish env infra d1 cr2
            (tr1 ++ [Ev.cond condTypeStorageExists .ctTrue "S3 Bucket Exists"])
        else
          let out := s3CreateLoop env infra d1 cr1 false 0 5000
          match out.exit with
          | .failed e => ⟨out.d, out.cr, some e, tr1 ++ out.trace⟩
          | _ =>
            if out.d.bucket = "" then
              ⟨out.d,
                setCond env.now condTypeStorageExists .ctFalse
                  "Unable to Generate Unique Bucket Name" "" out.cr,
                some (.str "unable to generate a unique s3 bucket name"),
                tr1 ++ out.trace
                  ++ [Ev.cond condTypeStorageExists .ctFalse "Unable to Generate Unique Bucket Name"]⟩
            else s3CreateFinish env infra out.d out.cr (tr1 ++ out.trace)

/-- `cr.Spec.Storage.S3.Bucket = ""` on the non-nil option (a nil pointer
would panic in Go). -/
def clearS3Bucket (o : Option S3Cfg) : Option S3Cfg :=
  o.map fun s => { s with bucket := "" }

/-- `(d *driver) RemoveStorage` of the S3 driver. -/
def s3RemoveStorage (env : S3Env) (d : S3Cfg) (cr : Config) :
    OpOut S3Cfg (Bool × Option Err) :=
  if cr.status.storageManaged = false ∨ d.bucket = "" then
    ⟨d, cr, (false, none), []⟩
  else
    match getS3Service env d with
    | (d0, some e) => ⟨d0, cr, (false, some e), []⟩
    | (d0, none) =>
      match env.deleteBucket with
      | some (Err.aws "NoSuchBucket" m) =>
        ⟨d0, setCond env.now condTypeStorageExists .ctFalse "S3 Bucket Deleted"
              "The S3 bucket did not exist." cr, (false, none),
          [Ev.s3DeleteBucket (some (Err.aws "NoSuchBucket" m))]⟩
      | some (Err.aws code m) =>
        ⟨d0, setCond env.now condTypeStorageExists .ctUnknown code (Err.aws code m).message cr,
          (false, some (.aws code m)), [Ev.s3DeleteBucket (some (Err.aws code m))]⟩
      | some e =>
        -- non-awserr failure: `return true, err` (retryable)
        ⟨d0, cr, (true, some e), [Ev.s3DeleteBucket (some e)]⟩
      | none =>
        match env.waitNotExists with
        | some e =>
          let cr' := match e with
            | .aws code m =>
              setCond env.now condTypeStorageExists .ctTrue code (Err.aws code m).message cr
            | _ => cr
          ⟨d0, cr', (false, some e),
            [Ev.s3DeleteBucket none, Ev.s3WaitNotExists (some e)]⟩
        | none =>
          let cr1 := { cr with spec.storage.s3 := clearS3Bucket cr.spec.storage.s3 }
          let d1 : S3Cfg := { d0 with bucket := "" }
          let cr2 :=
            if cr1.status.storage.s3 ≠ some d1 then
              { cr1 with status.storage.s3 := some d1 }
            else cr1
          ⟨d1, setCond env.now condTypeStorageExists .ctFalse "S3 Bucket Deleted"
                "The S3 bucket has been removed." cr2, (false, none),
            [Ev.s3DeleteBucket none, Ev.s3WaitNotExists none]⟩

/-! ## The controller (src/pkg/operator/controller.go) -/

/-- The proxy configuration fields `sync` projects into the environment. -/
structure ProxyStatus where
  noProxy : String
  httpProxy : String
  httpsProxy : String
deriving DecidableEq, Repr

/-- `newPermanentError`. -/
def newPermanentError (reason : String) (e : Err) : Err := .permanent reason e

/-- Persisted writes performed by one `sync` invocation, with the object
diffed/written at that point. -/
inductive SyncEvent
  | specUpdate (prev cur : Config)
  | statusUpdate (prev cur : Config)
deriving DecidableEq, Repr

/-- Oracle for the collaborators `sync` talks to.  `verifyResource`,
`generator.Apply`, `appendFinalizer`, `syncStatus`, `strategy.Metadata`,
`RemoveResources`, `finalizeResources` and `Bootstrap` live outside src/ and
are abstracted as arbitrary functions; `controller.go` only sequences them. -/
structure SyncEnv where
  /-- `listers.ProxyConfigs.Get`. -/
  proxyGet : GetRes ProxyStatus
  /-- `os.Setenv("NO_PROXY", …)`. -/
  setenvNoProxy : Option Err
  /-- `os.Setenv("HTTP_PROXY", …)`. -/
  setenvHTTPProxy : Option Err
  /-- `os.Setenv("HTTPS_PROXY", …)`. -/
  setenvHTTPSProxy : Option Err
  /-- `listers.RegistryConfigs.Get`. -/
  crGet : GetRes Config
  /-- `c.Bootstrap()`. -/
  bootstrap : Option Err
  /-- `c.finalizeResources`. -/
  finalize : Config → Config × Option Err
  /-- `c.RemoveResources`. -/
  removeResources : Config → Config × Option Err
  /-- `appendFinalizer`. -/
  appendFinalizer : Config → Config
  /-- `verifyResource`. -/
  verifyResource : Config → Option Err
  /-- `c.generator.Apply`. -/
  generatorApply : Config → Config × Option Err
  /-- `listers.Deployments.Get` (the deployment itself is only passed on). -/
  deployGet : GetRes Unit
  /-- `c.syncStatus cr deploy applyError removed`. -/
  syncStatus : Config → Option Unit → Option Err → Bool → Config
  /-- `strategy.Metadata(&prevCR.ObjectMeta, &cr.ObjectMeta)`. -/
  strategyMetadata : ObjectMeta → ObjectMeta → Bool
  /-- `regopset.NewForConfig` before the spec update. -/
  clientNew1 : Option Err
  /-- `client.ImageregistryV1().Configs().Update`, yielding the updated
  object's resource version on success. -/
  update : Config → Except Err String
  /-- `regopset.NewForConfig` before the status update. -/
  clientNew2 : Option Err
  /-- `client.ImageregistryV1().Configs().UpdateStatus`. -/
  updateStatus : Config → Option Err

/-- `(c *Controller) createOrUpdateResources`: append the finalizer, verify
(a failure becomes a `PermanentError` with reason `VerificationFailed`), then
`generator.Apply` (the `ErrStorageNotConfigured` sentinel becomes a
`PermanentError` with reason `StorageNotConfigured`; other errors propagate
unchanged). -/
def createOrUpdateResources (env : SyncEnv) (cr : Config) : Config × Option Err :=
  match env.verifyResource (env.appendFinalizer cr) with
  | some e =>
    (env.appendFinalizer cr, some (newPermanentError "VerificationFailed"
      (.str ("unable to complete resource: " ++ e.message))))
  | none =>
    match env.generatorApply (env.appendFinalizer cr) with
    | (cr', some Err.errStorageNotConfigured) =>
      (cr', some (newPermanentError "StorageNotConfigured" Err.errStorageNotConfigured))
    | (cr', some e) => (cr', some e)
    | (cr', none) => (cr', none)

/-- The `switch cr.Spec.ManagementState` dispatch of `sync`: yields the
mutated resource, `applyError`, and the `removed` flag.  `Unmanaged` and
unrecognized states are no-ops. -/
def syncDispatch (env : SyncEnv) (cr : Config) : Config × Option Err × Bool :=
  if cr.spec.managementState = "Removed" then
    ((env.removeResources cr).1, (env.removeResources cr).2, true)
  else if cr.spec.managementState = "Managed" then
    ((createOrUpdateResources env cr).1, (createOrUpdateResources env cr).2, false)
  else (cr, none, false)

/-- The final lines of `sync`: return `applyError` unless it is a
`permanentError`, in which case return nil. -/
def syncReturn (applyError : Option Err) : Option Err :=
  match applyError with
  | some e => if e.isPermanent then none else some e
  | none => none

/-- `cr.Status.ObservedGeneration = cr.Generation`. -/
def setObservedGeneration (cr : Config) : Config :=
  { cr with status.observedGeneration := cr.metadata.generation }

/-- Status half of the persistence tail of `sync`: set
`status.observedGeneration`, diff the status, and write the status
subresource only when it changed. -/
def syncStatusPersist (env : SyncEnv) (prevCR cr : Config) (applyError : Option Err)
    (tr : List SyncEvent) : List SyncEvent × Option Err :=
  if prevCR.status ≠ (setObservedGeneration cr).status then
    match env.clientNew2 with
    | some e => (tr, some e)
    | none =>
      match env.updateStatus (setObservedGeneration cr) with
      | some e => (tr, some e)
      | none => (tr ++ [SyncEvent.statusUpdate prevCR (setObservedGeneration cr)],
          syncReturn applyError)
  else (tr, syncReturn applyError)

/-- Persistence tail of `sync`: the spec/metadata update (only when either
changed against the pre-mutation copy), then the status update. -/
def syncPersist (env : SyncEnv) (prevCR cr : Config) (applyError : Option Err) :
    List SyncEvent × Option Err :=
  if env.strategyMetadata prevCR.metadata cr.metadata = true ∨ prevCR.spec ≠ cr.spec then
    match env.clientNew1 with
    | some e => ([], some e)
    | none =>
      match env.update cr with
      | .error e => ([], some e)
      | .ok rv =>
        syncStatusPersist env prevCR { cr with metadata.resourceVersion := rv } applyError
          [SyncEvent.specUpdate prevCR cr]
  else syncStatusPersist env prevCR cr applyError []

/-- `sync` after the dispatch: deployment lookup, `syncStatus`, then the
persistence tail. -/
def syncAfterDispatch (env : SyncEnv) (prevCR cr : Config) (applyError : Option Err)
    (removed : Bool) : List SyncEvent × Option Err :=
  match env.deployGet with
  | .err e =>
    ([], some (.str ("failed to get \"image-registry\" deployment: " ++ e.message)))
  | .notFound =>
    syncPersist env prevCR (env.syncStatus cr none applyError removed) applyError
  | .found u =>
    syncPersist env prevCR (env.syncStatus cr (some u) applyError removed) applyError

/-- `(c *Controller) sync`. -/
def sync (env : SyncEnv) : List SyncEvent × Option Err :=
  match env.proxyGet with
  | .err e =>
    ([], some (.str ("unable to get cluster proxy configuration: " ++ e.message)))
  | _ =>
    match env.setenvNoProxy with
    | some e => ([], some (.str ("unable to set NO_PROXY env var: " ++ e.message)))
    | none =>
      match env.setenvHTTPProxy with
      | some e => ([], some (.str ("unable to set HTTP_PROXY env var: " ++ e.message)))
      | none =>
        match env.setenvHTTPSProxy with
        | some e => ([], some (.str ("unable to set HTTPS_PROXY env var: " ++ e.message)))
        | none =>
          match env.crGet with
          | .err e =>
            ([], some (.str ("failed to get \"cluster\" registry operator resource: "
              ++ e.message)))
          | .notFound => ([], env.bootstrap)
          | .found cached =>
            -- `cr = cr.DeepCopy(); prevCR = cr.DeepCopy()`: the working copy
            -- and the pre-mutation copy both start as the cached object
            if cached.metadata.deletionTimestamp ≠ none then
              ([], (env.finalize cached).2)
            else
              syncAfterDispatch env cached (syncDispatch env cached).1
                (syncDispatch env cached).2.1 (syncDispatch env cached).2.2

/-- What `eventProcessor` does with the work-queue key after one `sync`. -/
inductive QueueAction
  | forget
  | addRateLimited
deriving DecidableEq, Repr

/-- One turn of `(c *Controller) eventProcessor` for the well-known key:
requeue with rate-limited backoff on a sync error, forget the key on
success. -/
def processQueueKey (env : SyncEnv) : QueueAction :=
  match (sync env).2 with
  | some _ => .addRateLimited
  | none => .forget

/-! ## Characterizations used by the claims -/

/-- The fixed reasons the Azure `StorageExists` can attach to the
`StorageExists` condition. -/
def azureExistsReasonEnum : List String :=
  [storageExistsReasonNotConfigured, storageExistsReasonConfigError,
   storageExistsReasonAzureError, storageExistsReasonContainerNotFound,
   storageExistsReasonContainerExists]

/-- The environments in which the Azure `StorageExists` meets an unexpected
failure: anything other than a clean probe or a ContainerNotFound answer. -/
def azureExistsUnexpected (env : AzureEnv) : Prop :=
  (∃ e, env.getConfig = .error e) ∨ env.accountsClient ≠ none ∨
  (∃ e, env.getKeyExists = .error e) ∨ env.sharedKeyCred ≠ none ∨
  env.urlParse ≠ none ∨
  (∃ e, env.getProperties = some e ∧ ∀ m, e ≠ .azStorage "ContainerNotFound" m)

/-- The environments in which the S3 `StorageExists` meets an unexpected
failure. -/
def s3ExistsUnexpected (env : S3Env) : Prop :=
  (∃ e, env.getS3 = .error e) ∨
  (∃ e, env.headBucket = some e ∧
    ∀ code m, e = .aws code m → s3IsNotFoundCode code = false)

/-- The situations in which the Azure `RemoveStorage` rewrites the status
mirror: a deletion call that just succeeded, or the account-already-gone
answer from `getAccountPrimaryKey`. -/
def azureMirrorClearJustified (env : AzureEnv) : Prop :=
  env.deleteContainer = none ∨ env.deleteAccount = none ∨
  (∃ e, env.getKeyRemove = .error (Err.doesNotExist e))

/-- The situations in which the Azure `CreateStorage` rewrites the status
mirror: a creation call that just succeeded, the UPI record path (no provider
call at all), or the name-not-available answer on a user-specified account
name (treated as an already-existing account). -/
def azureMirrorWriteJustified (env : AzureEnv) (d : AzureCfg) : Prop :=
  (∃ cfg, env.getConfig = .ok cfg ∧ cfg.accountKey ≠ "") ∨
  (∃ i n, env.createAccountAt i n = none) ∨
  env.createAccountProvided d.accountName = none ∨
  (∃ n m, env.createAccountProvided d.accountName = some (.nameNotAvailable n m)) ∨
  env.createContainer = none

/-- The situations in which the S3 `CreateStorage` rewrites the status
mirror: a successful head probe, a successful creation, a successful
existence wait (the hardening writes and the unmanaged sync-up all come after
it), the already-exists fall-through on a user-supplied name, or the
non-`awserr` creation-failure fall-through. -/
def s3MirrorWriteJustified (env : S3Env) : Prop :=
  env.headBucket = none ∨ (∃ i n, env.createBucket i n = none) ∨ env.wait = none ∨
  (∃ i n m, env.createBucket i n = some (.aws "BucketAlreadyExists" m)) ∨
  (∃ i n e, env.createBucket i n = some e ∧ ∀ code m, e ≠ .aws code m)

/-! ## Concrete fixtures for witnesses and counterexamples -/

/-- A minimal resource used by the concrete witnesses. -/
def crFix : Config :=
  { metadata := { generation := 2, resourceVersion := "42", deletionTimestamp := none },
    spec := { managementState := "Managed", storage := { azure := none, s3 := none } },
    status := { storageManaged := false, storage := { azure := none, s3 := none },
                conditions := [], observedGeneration := 0 } }

/-- UPI-style Azure credentials (a raw account key is supplied). -/
def azureCredsUpi : AzureCreds := { accountKey := "k", resourceGroup := "rg", region := "r" }

/-- An Azure oracle in which every external call succeeds and the credentials
carry a user-supplied account key. -/
def azureEnvUpi : AzureEnv :=
  { now := 0, getConfig := .ok azureCredsUpi, accountsClient := none,
    infraName := .ok "infra", randSuffix := fun _ => "abc12",
    createAccountAt := fun _ _ => none, createAccountProvided := fun _ => none,
    getKeyCont := .ok "key", createContainer := none, getKeyExists := .ok "key",
    sharedKeyCred := none, urlParse := none, getProperties := none,
    getKeyRemove := .ok "key", deleteContainer := none, deleteAccount := none }

/-- An S3 oracle in which every external call succeeds. -/
def s3EnvFix : S3Env :=
  { now := 0, getS3 := .ok "us-east-1", infraName := .ok "infra",
    headBucket := none, uuid := fun _ => "0123456789abcdef0123456789abcdef",
    createBucket := fun _ _ => none, wait := none, putPublicAccessBlock := none,
    putBucketTagging := none, putBucketEncryption := none, putLifecycle := none,
    deleteBucket := none, waitNotExists := none }

/-- A resource whose S3 spec mirror differs from its S3 status mirror. -/
def crS3Changed : Config :=
  { crFix with spec.storage.s3 := some ⟨"bkt", "us", "", "", false⟩ }

/-- An Azure oracle in managed (IPI) mode in which every account-creation
attempt reports a naming collision. -/
def azureEnvCollide : AzureEnv :=
  { azureEnvUpi with
    getConfig := .ok { accountKey := "", resourceGroup := "rg", region := "r" },
    createAccountAt := fun _ n => some (.nameNotAvailable n "taken") }

/-- An S3 oracle in which every bucket-creation attempt reports a naming
collision. -/
def s3EnvCollide : S3Env :=
  { s3EnvFix with createBucket := fun _ _ => some (.aws "BucketAlreadyExists" "taken") }

/-- An S3 oracle for the already-exists path: the head probe reports
`NotFound`, the creation attempt reports `BucketAlreadyExists`, everything
else succeeds. -/
def s3EnvC10 : S3Env :=
  { s3EnvFix with
    headBucket := some (.aws "NotFound" "nf"),
    createBucket := fun _ _ => some (.aws "BucketAlreadyExists" "ae") }

/-- An Azure oracle in managed (IPI) mode in which creating the
user-specified account reports a naming collision (the account already
exists). -/
def azureEnvC4 : AzureEnv :=
  { azureEnvUpi with
    getConfig := .ok { accountKey := "", resourceGroup := "rg", region := "r" },
    createAccountProvided := fun _ => some (.nameNotAvailable "acct" "taken") }

/-- A controller oracle in which every collaborator succeeds and nothing
changes: lookups find the fixture resource, verification and apply succeed,
and writes go through. -/
def syncEnvBase : SyncEnv :=
  { proxyGet := .notFound, setenvNoProxy := none, setenvHTTPProxy := none,
    setenvHTTPSProxy := none, crGet := .found crFix, bootstrap := none,
    finalize := fun c => (c, none), removeResources := fun c => (c, none),
    appendFinalizer := fun c => c, verifyResource := fun _ => none,
    generatorApply := fun c => (c, none), deployGet := .notFound,
    syncStatus := fun c _ _ _ => c, strategyMetadata := fun _ _ => false,
    clientNew1 := none, update := fun _ => .ok "43", clientNew2 := none,
    updateStatus := fun _ => none }

/-- The base controller oracle with a failing resource verification. -/
def syncEnvPermFix : SyncEnv :=
  { syncEnvBase with verifyResource := fun _ => some (.str "incomplete") }

/-- The base controller oracle with `generator.Apply` failing on a (transient)
network error. -/
def syncEnvTransFix : SyncEnv :=
  { syncEnvBase with generatorApply := fun c => (c, some (.str "network error")) }

/-! ## Helper lemmas -/

/-- Rewriting an already-empty bucket field is the identity. -/
theorem s3cfg_set_empty_bucket (d : S3Cfg) (h : d.bucket = "") :
    ({ d with bucket := "" } : S3Cfg) = d := by
  cases d
  simp_all

/-- When every creation attempt collides, the Azure account-creation loop
leaves driver config and resource untouched, exhausts its fuel making exactly
one (failed) provider call per attempt, and keeps the last collision as
`lastErr`. -/
theorem azureCreateLoop_collisions (env : AzureEnv) (infra : String) (msg : Nat → String)
    (hcol : ∀ i n, env.createAccountAt i n = some (.nameNotAvailable n (msg i))) :
    ∀ (fuel : Nat) (d : AzureCfg) (cr : Config) (i : Nat) (lastErr : Option Err),
      (azureCreateLoop env infra d cr lastErr i fuel).d = d ∧
      (azureCreateLoop env infra d cr lastErr i fuel).cr = cr ∧
      (azureCreateLoop env infra d cr lastErr i fuel).exit = .exhausted ∧
      ((azureCreateLoop env infra d cr lastErr i fuel).trace.filter
        Ev.isAzCreateAccount).length = fuel ∧
      (∀ ev ∈ (azureCreateLoop env infra d cr lastErr i fuel).trace, ∃ n m,
        ev = .azCreateAccount n (some (.nameNotAvailable n m))) ∧
      (azureCreateLoop env infra d cr lastErr i fuel).lastErr =
        (if fuel = 0 then lastErr else
          some (.nameNotAvailable (generateAccountName infra (env.randSuffix (i + fuel - 1)))
            (msg (i + fuel - 1)))) := by
  intro fuel
  induction fuel with
  | zero =>
    intro d cr i lastErr
    exact ⟨rfl, rfl, rfl, rfl, by simp [azureCreateLoop], by simp [azureCreateLoop]⟩
  | succ n ih =>
    intro d cr i lastErr
    obtain ⟨hd, hcr, hex, hlen, hall, hlast⟩ :=
      ih d cr (i + 1)
        (some (.nameNotAvailable (generateAccountName infra (env.randSuffix i)) (msg i)))
    simp only [azureCreateLoop, hcol i]
    refine ⟨hd, hcr, hex, ?_, ?_, ?_⟩
    · simp [Ev.isAzCreateAccount, hlen]
    · intro ev hev
      rcases List.mem_cons.mp hev with h | h
      · exact ⟨_, _, h⟩
      · exact hall ev h
    · rw [hlast]
      by_cases hn : n = 0
      · subst hn
        simp
      · rw [if_neg hn, if_neg (Nat.succ_ne_zero n)]
        have : i + 1 + n - 1 = i + (n + 1) - 1 := by omega
        rw [this]

/-- When every creation attempt collides, the S3 bucket-creation loop (started
with an empty bucket name, which each iteration regenerates and each collision
clears again) leaves driver config and resource untouched, exhausts its fuel
making exactly one (failed) provider call per attempt. -/
theorem s3CreateLoop_collisions (env : S3Env) (infra : String) (msg : Nat → String)
    (hcol : ∀ i nm, env.createBucket i nm = some (.aws "BucketAlreadyExists" (msg i))) :
    ∀ (fuel : Nat) (d : S3Cfg) (cr : Config) (gn : Bool) (i : Nat), d.bucket = "" →
      (s3CreateLoop env infra d cr gn i fuel).d = d ∧
      (s3CreateLoop env infra d cr gn i fuel).cr = cr ∧
      (s3CreateLoop env infra d cr gn i fuel).exit = .exhausted ∧
      ((s3CreateLoop env infra d cr gn i fuel).trace.filter Ev.isS3CreateBucket).length
        = fuel ∧
      (∀ ev ∈ (s3CreateLoop env infra d cr gn i fuel).trace,
        ev.isProviderSuccess = false) := by
  intro fuel
  induction fuel with
  | zero =>
    intro d cr gn i hd
    exact ⟨rfl, rfl, rfl, rfl, by simp [s3CreateLoop]⟩
  | succ n ih =>
    intro d cr gn i hd
    obtain ⟨hd', hcr', hex', hlen', hall'⟩ := ih d cr true (i + 1) hd
    have hrec :
        ({ ({ d with bucket := s3GenerateBucketName d.region infra (env.uuid i) } : S3Cfg) with
          bucket := "" } : S3Cfg) = d :=
      s3cfg_set_empty_bucket _ hd
    simp only [s3CreateLoop, hd, hcol i, if_pos, ite_true, ne_eq, not_true_eq_false,
      false_and, if_false, ite_false, hrec]
    refine ⟨hd', hcr', hex', ?_, ?_⟩
    · simp [Ev.isS3CreateBucket, hlen']
    · intro ev hev
      rcases List.mem_cons.mp hev with h | h
      · subst h
        simp [Ev.isProviderSuccess]
      · exact hall' ev h

/-- Azure `CreateStorage` in managed mode with no account name: when all 10
generation attempts collide, it makes exactly 10 (all failed) creation calls,
sets `StorageExists` to False with reason `AzureError` carrying the last
collision, and returns an error naming the last collision. -/
theorem azureCreateStorage_collision_exhaustion (env : AzureEnv) (d : AzureCfg) (cr : Config)
    (cfg : AzureCreds) (infra : String) (msg : Nat → String)
    (hg : env.getConfig = .ok cfg) (hkey : cfg.accountKey = "")
    (hclient : env.accountsClient = none) (hda : d.accountName = "")
    (hinfra : env.infraName = .ok infra)
    (hcol : ∀ i n, env.createAccountAt i n = some (.nameNotAvailable n (msg i))) :
    (azureCreateStorage env d cr).res =
      some (.str ("attmpts to create storage account failed, last error: "
        ++ Err.message (.nameNotAvailable (generateAccountName infra (env.randSuffix 9))
            (msg 9)))) ∧
    (azureCreateStorage env d cr).cr =
      setCond env.now condTypeStorageExists .ctFalse storageExistsReasonAzureError
        ("Unable to create storage account: "
          ++ Err.message (.nameNotAvailable (generateAccountName infra (env.randSuffix 9))
              (msg 9))) cr ∧
    ((azureCreateStorage env d cr).trace.filter Ev.isAzCreateAccount).length = 10 ∧
    (∀ ev ∈ (azureCreateStorage env d cr).trace, ev.isProviderSuccess = false) := by
  obtain ⟨hd, hcr, hex, hlen, hall, hlast⟩ :=
    azureCreateLoop_collisions env infra msg hcol 10 d cr 0 none
  have hfull : azureCreateLoop env infra d cr none 0 10
      = ⟨d, cr,
          some (.nameNotAvailable (generateAccountName infra (env.randSuffix 9)) (msg 9)),
          .exhausted, (azureCreateLoop env infra d cr none 0 10).trace⟩ := by
    conv_lhs => rw [show azureCreateLoop env infra d cr none 0 10
      = ⟨(azureCreateLoop env infra d cr none 0 10).d,
          (azureCreateLoop env infra d cr none 0 10).cr,
          (azureCreateLoop env infra d cr none 0 10).lastErr,
          (azureCreateLoop env infra d cr none 0 10).exit,
          (azureCreateLoop env infra d cr none 0 10).trace⟩ from rfl]
    rw [hd, hcr, hex, hlast]
    norm_num
  have hnotsucc : ∀ ev ∈ (azureCreateLoop env infra d cr none 0 10).trace,
      ev.isProviderSuccess = false := by
    intro ev hev
    obtain ⟨n, m, rfl⟩ := hall ev hev
    simp [Ev.isProviderSuccess]
  unfold azureCreateStorage
  simp only [hg, hkey, hclient, hda, hinfra, ne_eq, not_true_eq_false, if_false,
    ite_false, ite_true, reduceIte, not_false_eq_true]
  rw [hfull]
  simp only [hda, reduceIte, ite_true]
  exact ⟨rfl, rfl, hlen, hnotsucc⟩

/-- S3 `CreateStorage` with no bucket name: when all 5000 generation attempts
collide, it makes exactly 5000 (all failed) creation calls, sets
`StorageExists` to False with reason "Unable to Generate Unique Bucket Name",
and returns the "unable to generate a unique s3 bucket name" error. -/
theorem s3CreateStorage_collision_exhaustion (env : S3Env) (d : S3Cfg) (cr : Config)
    (region infra : String) (msg : Nat → String)
    (hs3 : env.getS3 = .ok region) (hdb : d.bucket = "")
    (hinfra : env.infraName = .ok infra)
    (hcol : ∀ i nm, env.createBucket i nm = some (.aws "BucketAlreadyExists" (msg i))) :
    (s3CreateStorage env d cr).res
      = some (.str "unable to generate a unique s3 bucket name") ∧
    (s3CreateStorage env d cr).cr =
      setCond env.now condTypeStorageExists .ctFalse
        "Unable to Generate Unique Bucket Name" "" cr ∧
    ((s3CreateStorage env d cr).trace.filter Ev.isS3CreateBucket).length = 5000 ∧
    (∀ ev ∈ (s3CreateStorage env d cr).trace, ev.isProviderSuccess = false) := by
  have hd0 : getS3Service env d
      = (if d.region = "" then { d with region := region } else d, none) := by
    unfold getS3Service
    rw [hs3]
  set d0 : S3Cfg := if d.region = "" then { d with region := region } else d with hd0def
  have hd0b : d0.bucket = "" := by
    rw [hd0def]
    by_cases hr : d.region = "" <;> simp [hr, hdb]
  obtain ⟨hdL, hcrL, hexL, hlenL, hallL⟩ :=
    s3CreateLoop_collisions env infra msg hcol 5000 d0 cr false 0 hd0b
  have hfull : s3CreateLoop env infra d0 cr false 0 5000
      = ⟨d0, cr, (s3CreateLoop env infra d0 cr false 0 5000).generatedName,
          .exhausted, (s3CreateLoop env infra d0 cr false 0 5000).trace⟩ := by
    conv_lhs => rw [show s3CreateLoop env infra d0 cr false 0 5000
      = ⟨(s3CreateLoop env infra d0 cr false 0 5000).d,
          (s3CreateLoop env infra d0 cr false 0 5000).cr,
          (s3CreateLoop env infra d0 cr false 0 5000).generatedName,
          (s3CreateLoop env infra d0 cr false 0 5000).exit,
          (s3CreateLoop env infra d0 cr false 0 5000).trace⟩ from rfl]
    rw [hdL, hcrL, hexL]
  unfold s3CreateStorage
  rw [hd0, hinfra]
  simp only [hd0b, ne_eq, not_true_eq_false, if_false, ite_false, reduceIte,
    not_false_eq_true]
  rw [hfull]
  simp only [hd0b, false_and, if_false, ite_false, reduceIte, ne_eq]
  refine ⟨trivial, trivial, ?_, ?_⟩
  · simp only [List.nil_append, List.filter_append, List.length_append]
    rw [List.filter_cons]
    simp [Ev.isS3CreateBucket, hlenL]
  · intro ev hev
    simp only [List.nil_append, List.mem_append] at hev
    rcases hev with h | h
    · exact hallL ev h
    · rcases List.mem_cons.mp h with h' | h'
      · subst h'
        simp [Ev.isProviderSuccess]
      · simp at h'

/-- When the status-subresource write path does not fail, the status half of
the persistence tail returns `applyError` filtered through the
permanent-error check. -/
theorem syncStatusPersist_ok (env : SyncEnv) (prevCR cr : Config)
    (applyError : Option Err) (tr : List SyncEvent)
    (h2 : env.clientNew2 = none) (hus : ∀ c, env.updateStatus c = none) :
    (syncStatusPersist env prevCR cr applyError tr).2 = syncReturn applyError := by
  unfold syncStatusPersist
  simp only [h2, hus]
  split <;> rfl

/-- When the persistence writes do not fail, the persistence tail of `sync`
returns `applyError` filtered through the permanent-error check. -/
theorem syncPersist_ok (env : SyncEnv) (prevCR cr : Config) (applyError : Option Err)
    (h1 : env.clientNew1 = none) (hup : ∀ c, ∃ rv, env.update c = .ok rv)
    (h2 : env.clientNew2 = none) (hus : ∀ c, env.updateStatus c = none) :
    (syncPersist env prevCR cr applyError).2 = syncReturn applyError := by
  unfold syncPersist
  obtain ⟨rv, hrv⟩ := hup cr
  simp only [h1, hrv]
  split
  · exact syncStatusPersist_ok env prevCR _ applyError _ h2 hus
  · exact syncStatusPersist_ok env prevCR _ applyError _ h2 hus

/-- As `syncPersist_ok`, lifted over the deployment lookup and `syncStatus`
recomputation. -/
theorem syncAfterDispatch_ok (env : SyncEnv) (prevCR cr : Config)
    (applyError : Option Err) (removed : Bool)
    (hdep : ∀ e, env.deployGet ≠ .err e)
    (h1 : env.clientNew1 = none) (hup : ∀ c, ∃ rv, env.update c = .ok rv)
    (h2 : env.clientNew2 = none) (hus : ∀ c, env.updateStatus c = none) :
    (syncAfterDispatch env prevCR cr applyError removed).2 = syncReturn applyError := by
  unfold syncAfterDispatch
  rcases hd : env.deployGet with u | _ | e
  · exact syncPersist_ok env prevCR _ applyError h1 hup h2 hus
  · exact syncPersist_ok env prevCR _ applyError h1 hup h2 hus
  · exact absurd hd (hdep e)

/-- In `Managed` state the dispatch runs `createOrUpdateResources`. -/
theorem syncDispatch_managed (env : SyncEnv) (cr : Config)
    (hm : cr.spec.managementState = "Managed") :
    syncDispatch env cr =
      ((createOrUpdateResources env cr).1, (createOrUpdateResources env cr).2, false) := by
  unfold syncDispatch
  rw [hm, if_neg (by decide), if_pos rfl]

/-- `sync` in `Managed` state with working collaborators returns the apply
error filtered through the permanent-error check. -/
theorem sync_managed_returns_filtered_applyError (env : SyncEnv) (cr0 : Config)
    (hpx : ∀ e, env.proxyGet ≠ .err e)
    (hs1 : env.setenvNoProxy = none) (hs2 : env.setenvHTTPProxy = none)
    (hs3 : env.setenvHTTPSProxy = none)
    (hcr : env.crGet = .found cr0)
    (hdel : cr0.metadata.deletionTimestamp = none)
    (hm : cr0.spec.managementState = "Managed")
    (hdep : ∀ e, env.deployGet ≠ .err e)
    (h1 : env.clientNew1 = none) (hup : ∀ c, ∃ rv, env.update c = .ok rv)
    (h2 : env.clientNew2 = none) (hus : ∀ c, env.updateStatus c = none) :
    (sync env).2 = syncReturn (createOrUpdateResources env cr0).2 := by
  unfold sync
  rcases hpg : env.proxyGet with p | _ | e
  case err => exact absurd hpg (hpx e)
  all_goals
    rw [hs1, hs2, hs3, hcr]
    simp only [hdel, ne_eq, not_true_eq_false, if_false, ite_false, reduceIte,
      not_false_eq_true, ite_true]
    rw [syncDispatch_managed env cr0 hm]
    exact syncAfterDispatch_ok env cr0 _ _ false hdep h1 hup h2 hus

/-- The events of one `sync` are those of its persistence tail (or none at
all on the early-return and finalization paths). -/
theorem sync_trace_cases (env : SyncEnv) :
    (sync env).1 = [] ∨
    ∃ prevCR cr ae, (sync env).1 = (syncPersist env prevCR cr ae).1 := by
  unfold sync syncAfterDispatch
  repeat' split
  all_goals first
  | exact Or.inl rfl
  | exact Or.inr ⟨_, _, _, rfl⟩

/-- Any event in the status half of the persistence trace is either carried
over from `tr` or is the one status update, recording a genuinely changed
status whose `observedGeneration` was set first. -/
theorem syncStatusPersist_mem (env : SyncEnv) (prevCR cr : Config) (ae : Option Err)
    (tr : List SyncEvent) (ev : SyncEvent)
    (h : ev ∈ (syncStatusPersist env prevCR cr ae tr).1) :
    ev ∈ tr ∨ (ev = SyncEvent.statusUpdate prevCR (setObservedGeneration cr) ∧
      prevCR.status ≠ (setObservedGeneration cr).status) := by
  unfold syncStatusPersist at h
  split at h
  case isTrue hchanged =>
    rcases h2 : env.clientNew2 with _ | e <;> rw [h2] at h
    · rcases hu : env.updateStatus (setObservedGeneration cr) with _ | e <;> rw [hu] at h
      · rcases List.mem_append.mp h with h' | h'
        · exact Or.inl h'
        · exact Or.inr ⟨List.mem_singleton.mp h', hchanged⟩
      · exact Or.inl h
    · exact Or.inl h
  case isFalse => exact Or.inl h

/-- Shape of the status half of the persistence trace: `tr` possibly followed
by one status update. -/
theorem syncStatusPersist_trace_shape (env : SyncEnv) (prevCR cr : Config)
    (ae : Option Err) (tr : List SyncEvent) :
    (syncStatusPersist env prevCR cr ae tr).1 = tr ∨
    (syncStatusPersist env prevCR cr ae tr).1 =
      tr ++ [SyncEvent.statusUpdate prevCR (setObservedGeneration cr)] := by
  unfold syncStatusPersist
  split
  · rcases h2 : env.clientNew2 with _ | e
    · rcases hu : env.updateStatus (setObservedGeneration cr) with _ | e
      · exact Or.inr rfl
      · exact Or.inl rfl
    · exact Or.inl rfl
  · exact Or.inl rfl

/-- Any event of the persistence trace is a spec update of a genuinely
changed spec/metadata or a status update of a genuinely changed status with
`observedGeneration` set first — and both are diffed against the pre-mutation
copy.  -/
theorem syncPersist_mem (env : SyncEnv) (prevCR cr : Config) (ae : Option Err)
    (ev : SyncEvent) (h : ev ∈ (syncPersist env prevCR cr ae).1) :
    (∃ c, ev = SyncEvent.specUpdate prevCR c ∧
      (env.strategyMetadata prevCR.metadata c.metadata = true ∨ prevCR.spec ≠ c.spec)) ∨
    (∃ c, ev = SyncEvent.statusUpdate prevCR c ∧ prevCR.status ≠ c.status ∧
      c.status.observedGeneration = c.metadata.generation) := by
  unfold syncPersist at h
  split at h
  case isTrue hchanged =>
    rcases h1 : env.clientNew1 with _ | e <;> rw [h1] at h
    · rcases hup : env.update cr with e | rv <;> rw [hup] at h
      · simp at h
      · rcases syncStatusPersist_mem env prevCR _ ae _ ev h with h' | ⟨hev, hne⟩
        · exact Or.inl ⟨cr, List.mem_singleton.mp h', hchanged⟩
        · exact Or.inr ⟨_, hev, hne, rfl⟩
    · simp at h
  case isFalse =>
    rcases syncStatusPersist_mem env prevCR _ ae _ ev h with h' | ⟨hev, hne⟩
    · simp at h'
    · exact Or.inr ⟨_, hev, hne, rfl⟩

/-- Shape of the persistence-tail trace: spec updates (at most one) followed
by status updates (at most one). -/
theorem syncPersist_trace_shape (env : SyncEnv) (prevCR cr : Config)
    (ae : Option Err) :
    ∃ s t, (syncPersist env prevCR cr ae).1 = s ++ t ∧
      (∀ ev ∈ s, ∃ p c, ev = SyncEvent.specUpdate p c) ∧
      (∀ ev ∈ t, ∃ p c, ev = SyncEvent.statusUpdate p c) := by
  unfold syncPersist
  split
  · rcases h1 : env.clientNew1 with _ | e
    · rcases hup : env.update cr with e | rv <;> simp only [h1, hup]
      · exact ⟨[], [], rfl, by simp, by simp⟩
      · rcases syncStatusPersist_trace_shape env prevCR
          { cr with metadata.resourceVersion := rv } ae
          [SyncEvent.specUpdate prevCR cr] with h | h <;> rw [h]
        · exact ⟨[SyncEvent.specUpdate prevCR cr], [], by simp, by simp, by simp⟩
        · exact ⟨[SyncEvent.specUpdate prevCR cr],
            [SyncEvent.statusUpdate prevCR
              (setObservedGeneration { cr with metadata.resourceVersion := rv })],
            by simp, by simp, by simp⟩
    · simp only [h1]
      exact ⟨[], [], rfl, by simp, by simp⟩
  · rcases syncStatusPersist_trace_shape env prevCR cr ae [] with h | h <;> rw [h]
    · exact ⟨[], [], rfl, by simp, by simp⟩
    · exact ⟨[], [SyncEvent.statusUpdate prevCR (setObservedGeneration cr)],
        by simp, by simp, by simp⟩

/-- A condition update touches only the condition list. -/
theorem setCond_storage (now : Nat) (t : String) (s : CondStatus) (r m : String)
    (cr : Config) : (setCond now t s r m cr).status.storage = cr.status.storage := rfl

/-- A condition update does not touch `storageManaged`. -/
theorem setCond_storageManaged (now : Nat) (t : String) (s : CondStatus) (r m : String)
    (cr : Config) :
    (setCond now t s r m cr).status.storageManaged = cr.status.storageManaged := rfl

/-- A condition update does not touch the spec. -/
theorem setCond_spec (now : Nat) (t : String) (s : CondStatus) (r m : String)
    (cr : Config) : (setCond now t s r m cr).spec = cr.spec := rfl

/-- One iteration of the S3 creation loop on a user-supplied bucket name that
the provider reports as `BucketAlreadyExists`: the "Unable to Access Bucket"
condition is recorded, and the iteration nevertheless runs the success tail
(`break` only exits the switch). -/
theorem s3CreateLoop_user_collision_step (env : S3Env) (infra : String) (d : S3Cfg)
    (cr : Config) (i fuel : Nat) (mc : String)
    (hb : ¬d.bucket = "")
    (hcb : env.createBucket i d.bucket = some (.aws "BucketAlreadyExists" mc)) :
    s3CreateLoop env infra d cr false i (fuel + 1) =
      ⟨d,
        setCond env.now condTypeStorageExists .ctTrue "Creation Successful"
          "S3 bucket was successfully created"
          { (setCond env.now condTypeStorageExists .ctFalse "Unable to Access Bucket"
              "The bucket exists, but we do not have permission to access it" cr) with
            status.storageManaged := true,
            status.storage.s3 := some d,
            spec.storage.s3 := some d },
        false, .broke i .alreadyExistsUserName,
        [Ev.s3CreateBucket d.bucket (some (.aws "BucketAlreadyExists" mc)),
         Ev.cond condTypeStorageExists .ctFalse "Unable to Access Bucket",
         Ev.cond condTypeStorageExists .ctTrue "Creation Successful"]⟩ := by
  unfold s3CreateLoop
  simp only [hb, if_false, ite_false, reduceIte, hcb, ne_eq, not_false_eq_true,
    true_and, and_true, if_true, ite_true]

/-- The tail of the S3 `CreateStorage` on managed storage when the wait and
all four hardening calls succeed: the driver config gains `encrypt := true`,
the mirrors are rewritten to it, and the four success conditions are
recorded. -/
theorem s3CreateFinish_allOk (env : S3Env) (infra : String) (d : S3Cfg) (cr : Config)
    (tr : List Ev)
    (hw : env.wait = none) (hpab : env.putPublicAccessBlock = none)
    (htag : env.putBucketTagging = none) (henc : env.putBucketEncryption = none)
    (hlc : env.putLifecycle = none) (hman : cr.status.storageManaged = true) :
    s3CreateFinish env infra d cr tr =
      ⟨{ d with encrypt := true },
        setCond env.now condTypeCleanupEnabled .ctTrue "Enable Cleanup Successful"
          "Default cleanup of incomplete multipart uploads after one (1) day was successfully enabled"
          (setCond env.now condTypeStorageEncrypted .ctTrue "Encryption Successful"
            ("Default " ++ (if d.keyID ≠ "" then "aws:kms" else "AES256")
              ++ " encryption was successfully enabled on the S3 bucket")
            { (setCond env.now condTypeStorageTagged .ctTrue "Tagging Successful"
                "Tags were successfully applied to the S3 bucket"
                (setCond env.now condTypePublicAccessBlocked .ctTrue
                  "Public Access Block Successful"
                  "Public access to the S3 bucket and its contents have been successfully blocked."
                  { cr with
                    status.storage.s3 := some d,
                    spec.storage.s3 := some d })) with
              status.storage.s3 := some ({ d with encrypt := true } : S3Cfg),
              spec.storage.s3 := some ({ d with encrypt := true } : S3Cfg) }),
        none,
        tr ++ [Ev.s3Wait none]
           ++ [Ev.s3PutPublicAccessBlock none,
               Ev.cond condTypePublicAccessBlocked .ctTrue "Public Access Block Successful"]
           ++ [Ev.s3PutBucketTagging none,
               Ev.cond condTypeStorageTagged .ctTrue "Tagging Successful"]
           ++ [Ev.s3PutBucketEncryption none,
               Ev.cond condTypeStorageEncrypted .ctTrue "Encryption Successful"]
           ++ [Ev.s3PutLifecycle none,
               Ev.cond condTypeCleanupEnabled .ctTrue "Enable Cleanup Successful"]⟩ := by
  unfold s3CreateFinish
  rw [hw]
  simp only [hman, setCond_storageManaged, hpab, htag, henc, hlc, if_true, ite_true,
    reduceIte, List.append_assoc]

/-- `Char.toLower` sends an alphanumeric ASCII character into `[0-9a-z]`. -/
theorem toLower_of_alphanum (c : Char) (h : c.isAlphanum = true) :
    ((Char.toLower c).isDigit || (Char.toLower c).isLower) = true := by
  simp only [Char.isAlphanum, Char.isAlpha, Char.isUpper, Char.isLower, Char.isDigit,
    Bool.or_eq_true, decide_eq_true_eq, Bool.and_eq_true] at h ⊢
  unfold Char.toLower
  by_cases hu : c.toNat ≥ 65 ∧ c.toNat ≤ 90
  · simp only [hu, if_pos, and_true, true_and]
    obtain ⟨h1, h2⟩ := hu
    right
    constructor
    · show 97 ≤ (Char.ofNat (c.toNat + 32)).toNat
      generalize c.toNat = m at h1 h2
      interval_cases m <;> decide
    · show (Char.ofNat (c.toNat + 32)).toNat ≤ 122
      generalize c.toNat = m at h1 h2
      interval_cases m <;> decide
  · simp only [hu, if_neg, not_false_iff]
    rcases h with (h | h) | h
    · exact absurd ⟨h.1, h.2⟩ hu
    · right; exact h
    · left; exact h

/-- Every character of the (possibly defaulted) stripped infrastructure name
is alphanumeric. -/
theorem accountNameBase_alphanum (inp : String) :
    ∀ c ∈ (accountNameBase inp).data, c.isAlphanum = true := by
  intro c hc
  unfold accountNameBase at hc
  split at hc
  · fin_cases hc <;> decide
  · exact (List.mem_filter.mp hc).2

/-- Truncation only keeps characters of its input. -/
theorem accountNameTrunc_mem (p : String) :
    ∀ c ∈ (accountNameTrunc p).data, c ∈ p.data := by
  intro c hc
  unfold accountNameTrunc at hc
  split at hc
  · exact List.mem_of_mem_take hc
  · exact hc

/-- The truncated name has at most `24 - 5` characters. -/
theorem accountNameTrunc_len (p : String) : (accountNameTrunc p).length ≤ 19 := by
  unfold accountNameTrunc
  split
  · show (p.data.take (24 - 5)).length ≤ 19
    simp [List.length_take_le 19 p.data]
  · next h => exact Nat.le_of_not_lt h

/-- A true probe answer comes with a nil error (Azure). -/
theorem azureStorageExists_true_imp_nil (env : AzureEnv) (d : AzureCfg) (cr : Config) :
    (azureStorageExists env d cr).res.1 = true →
      (azureStorageExists env d cr).res.2 = none := by
  unfold azureStorageExists azureStorageExistsProbe
  repeat' split <;> (try simp)

/-- Azure `StorageExists` always records a `StorageExists` condition with a
reason from the fixed enum (and touches nothing else of the resource). -/
theorem azureStorageExists_cond (env : AzureEnv) (d : AzureCfg) (cr : Config) :
    ∃ st r m, r ∈ azureExistsReasonEnum ∧
      (azureStorageExists env d cr).cr = setCond env.now condTypeStorageExists st r m cr := by
  unfold azureStorageExists azureStorageExistsProbe
  repeat' split
  all_goals exact ⟨_, _, _, by decide, rfl⟩

/-- A non-nil error from the Azure `StorageExists` only arises on configured
storage and an unexpected failure. -/
theorem azureStorageExists_err (env : AzureEnv) (d : AzureCfg) (cr : Config) :
    (azureStorageExists env d cr).res.2 ≠ none →
      d.accountName ≠ "" ∧ d.container ≠ "" ∧ azureExistsUnexpected env := by
  unfold azureStorageExists azureStorageExistsProbe
  repeat' split
  all_goals try simp
  all_goals simp_all [azureExistsUnexpected]

/-- The not-configured branch of the Azure `StorageExists`. -/
theorem azureStorageExists_notConfigured (env : AzureEnv) (d : AzureCfg) (cr : Config)
    (h : d.accountName = "" ∨ d.container = "") :
    azureStorageExists env d cr =
      ⟨d, setCond env.now condTypeStorageExists .ctFalse storageExistsReasonNotConfigured
            "Storage is not configured" cr, (false, none), []⟩ := by
  unfold azureStorageExists
  rw [if_pos h]

/-- The container-not-found outcome of the Azure `StorageExists` is reported
as `(false, nil)` with reason `ContainerNotFound`. -/
theorem azureStorageExists_notFound (env : AzureEnv) (d : AzureCfg) (cr : Config)
    (cfg : AzureCreds) (m : String)
    (h0 : ¬(d.accountName = "" ∨ d.container = ""))
    (hg : env.getConfig = .ok cfg) (hkey : cfg.accountKey ≠ "")
    (hc : env.sharedKeyCred = none) (hu : env.urlParse = none)
    (hp : env.getProperties = some (.azStorage "ContainerNotFound" m)) :
    (azureStorageExists env d cr).res = (false, none) ∧
    (azureStorageExists env d cr).cr =
      setCond env.now condTypeStorageExists .ctFalse storageExistsReasonContainerNotFound
        "Container does not exist" cr := by
  unfold azureStorageExists azureStorageExistsProbe
  rw [if_neg h0, hg]
  simp [hkey, hc, hu, hp]

/-- The successful probe of the Azure `StorageExists` is reported as
`(true, nil)` with reason `ContainerExists`. -/
theorem azureStorageExists_success (env : AzureEnv) (d : AzureCfg) (cr : Config)
    (cfg : AzureCreds)
    (h0 : ¬(d.accountName = "" ∨ d.container = ""))
    (hg : env.getConfig = .ok cfg) (hkey : cfg.accountKey ≠ "")
    (hc : env.sharedKeyCred = none) (hu : env.urlParse = none)
    (hp : env.getProperties = none) :
    (azureStorageExists env d cr).res = (true, none) ∧
    (azureStorageExists env d cr).cr =
      setCond env.now condTypeStorageExists .ctTrue storageExistsReasonContainerExists
        "Storage container exists" cr := by
  unfold azureStorageExists azureStorageExistsProbe
  rw [if_neg h0, hg]
  simp [hkey, hc, hu, hp]

/-- A true probe answer comes with a nil error (S3). -/
theorem s3StorageExists_true_imp_nil (env : S3Env) (d : S3Cfg) (cr : Config) :
    (s3StorageExists env d cr).res.1 = true → (s3StorageExists env d cr).res.2 = none := by
  unfold s3StorageExists s3BucketExists getS3Service
  repeat' split <;> (try simp)

/-- With a configured bucket, the S3 `StorageExists` always records a
`StorageExists` condition. -/
theorem s3StorageExists_cond (env : S3Env) (d : S3Cfg) (cr : Config)
    (hb : d.bucket ≠ "") :
    ∃ st r m, (s3StorageExists env d cr).cr
      = setCond env.now condTypeStorageExists st r m cr := by
  unfold s3StorageExists s3BucketExists getS3Service
  rw [if_neg hb]
  repeat' split
  all_goals exact ⟨_, _, _, rfl⟩

/-- A non-nil error from the S3 `StorageExists` only arises from an
unexpected failure. -/
theorem s3StorageExists_err (env : S3Env) (d : S3Cfg) (cr : Config) :
    (s3StorageExists env d cr).res.2 ≠ none → s3ExistsUnexpected env := by
  intro hne
  rcases h3 : env.getS3 with e | r
  · exact Or.inl ⟨e, h3⟩
  · rcases hh : env.headBucket with _ | e
    · exfalso
      apply hne
      unfold s3StorageExists s3BucketExists getS3Service
      rw [h3, hh]
      by_cases hb : d.bucket = "" <;> by_cases hr : d.region = "" <;> simp [hb, hr]
    · refine Or.inr ⟨e, hh, ?_⟩
      intro code m hE
      subst hE
      by_contra hcode
      rw [Bool.not_eq_false] at hcode
      apply hne
      unfold s3StorageExists s3BucketExists getS3Service
      rw [h3, hh]
      by_cases hb : d.bucket = "" <;> by_cases hr : d.region = "" <;>
        simp [hb, hr, hcode]

/-- The empty-bucket branch of the S3 `StorageExists` returns `(false, nil)`
without touching the resource. -/
theorem s3StorageExists_notConfigured (env : S3Env) (d : S3Cfg) (cr : Config)
    (hb : d.bucket = "") :
    s3StorageExists env d cr = ⟨d, cr, (false, none), []⟩ := by
  unfold s3StorageExists
  rw [if_pos hb]

/-- The bucket-not-there outcome of the S3 `StorageExists` (`NoSuchBucket`,
`Forbidden` or `NotFound` from `HeadBucket`) is reported as `(false, nil)`
with the AWS code as the condition reason. -/
theorem s3StorageExists_notFound (env : S3Env) (d : S3Cfg) (cr : Config)
    (region code m : String)
    (hb : d.bucket ≠ "") (hcfg : env.getS3 = .ok region)
    (hh : env.headBucket = some (.aws code m)) (hcode : s3IsNotFoundCode code = true) :
    (s3StorageExists env d cr).res = (false, none) ∧
    (s3StorageExists env d cr).cr =
      setCond env.now condTypeStorageExists .ctFalse code (Err.aws code m).message cr := by
  unfold s3StorageExists s3BucketExists getS3Service
  rw [if_neg hb, if_neg hb, hcfg]
  by_cases hr : d.region = "" <;> simp [hr, hh, hcode]

/-- The successful probe of the S3 `StorageExists` is reported as
`(true, nil)` with reason "S3 Bucket Exists". -/
theorem s3StorageExists_success (env : S3Env) (d : S3Cfg) (cr : Config)
    (region : String)
    (hb : d.bucket ≠ "") (hcfg : env.getS3 = .ok region)
    (hh : env.headBucket = none) :
    (s3StorageExists env d cr).res = (true, none) ∧
    (s3StorageExists env d cr).cr =
      setCond env.now condTypeStorageExists .ctTrue "S3 Bucket Exists" "" cr := by
  unfold s3StorageExists s3BucketExists getS3Service
  rw [if_neg hb, if_neg hb, hcfg]
  by_cases hr : d.region = "" <;> simp [hr, hh]

/-- The Azure `StorageExists` never touches the storage mirrors. -/
theorem azureStorageExists_mirror (env : AzureEnv) (d : AzureCfg) (cr : Config) :
    (azureStorageExists env d cr).cr.status.storage = cr.status.storage := by
  obtain ⟨st, r, m, _, hcr⟩ := azureStorageExists_cond env d cr
  rw [hcr, setCond_storage]

/-- The S3 `StorageExists` never touches the storage mirrors. -/
theorem s3StorageExists_mirror (env : S3Env) (d : S3Cfg) (cr : Config) :
    (s3StorageExists env d cr).cr.status.storage = cr.status.storage := by
  by_cases hb : d.bucket = ""
  · rw [s3StorageExists_notConfigured env d cr hb]
  · obtain ⟨st, r, m, hcr⟩ := s3StorageExists_cond env d cr hb
    rw [hcr, setCond_storage]

/-- The S3 `StorageChanged` never touches the storage mirrors. -/
theorem s3StorageChanged_mirror (now : Nat) (cr : Config) :
    (s3StorageChanged now cr).2.status.storage = cr.status.storage := by
  unfold s3StorageChanged
  split
  · rw [setCond_storage]
  · rfl

/-- If the Azure account-creation retry loop changed the status mirror, some
creation attempt succeeded. -/
theorem azureCreateLoop_mirror (env : AzureEnv) (infra : String) :
    ∀ (fuel : Nat) (d : AzureCfg) (cr : Config) (lastErr : Option Err) (i : Nat),
      (azureCreateLoop env infra d cr lastErr i fuel).cr.status.storage.azure
          ≠ cr.status.storage.azure →
      ∃ j n, env.createAccountAt j n = none := by
  intro fuel
  induction fuel with
  | zero => intro d cr lastErr i h; exact absurd rfl h
  | succ fuel ih =>
    intro d cr lastErr i h
    unfold azureCreateLoop at h
    simp only [] at h
    split at h
    · split at h
      · exact ih d cr _ (i + 1) h
      · exact absurd rfl h
    · next heq => exact ⟨_, _, heq⟩

/-- If the S3 bucket-creation retry loop changed the status mirror, some
creation attempt succeeded, or hit `BucketAlreadyExists` on a user-supplied
name, or failed with a non-`awserr` error (both fall-through paths). -/
theorem s3CreateLoop_mirror (env : S3Env) (infra : String) :
    ∀ (fuel : Nat) (d : S3Cfg) (cr : Config) (gn : Bool) (i : Nat),
      (s3CreateLoop env infra d cr gn i fuel).cr.status.storage.s3
          ≠ cr.status.storage.s3 →
      (∃ j n, env.createBucket j n = none) ∨
      (∃ j n m, env.createBucket j n = some (.aws "BucketAlreadyExists" m)) ∨
      (∃ j n e, env.createBucket j n = some e ∧ ∀ code m, e ≠ .aws code m) := by
  intro fuel
  induction fuel with
  | zero => intro d cr gn i h; exact absurd rfl h
  | succ fuel ih =>
    intro d cr gn i h
    unfold s3CreateLoop at h
    simp only [] at h
    by_cases hb : d.bucket = ""
    · simp only [hb, reduceIte, ne_eq, Bool.true_eq_false, and_false, ite_false,
        not_true_eq_false, false_and, if_false] at h
      split at h
      · next m heq => exact ih _ cr _ (i + 1) h
      · next code m heq => simp [setCond] at h
      · next e hna1 hna2 heq =>
          refine Or.inr (Or.inr ⟨_, _, e, heq, ?_⟩)
          intro code m hx
          exact hna2 code m hx
      · next heq => exact Or.inl ⟨_, _, heq⟩
    · simp only [hb, reduceIte, ite_false, if_false] at h
      split at h
      · next m heq =>
          split at h
          · exact Or.inr (Or.inl ⟨_, _, _, heq⟩)
          · exact ih _ cr _ (i + 1) h
      · next code m heq => simp [setCond] at h
      · next e hna1 hna2 heq =>
          refine Or.inr (Or.inr ⟨_, _, e, heq, ?_⟩)
          intro code m hx
          exact hna2 code m hx
      · next heq => exact Or.inl ⟨_, _, heq⟩

/-- A `(d1, nil, tr)` answer from `bucketExists` on a non-empty name means the
`HeadBucket` probe succeeded. -/
theorem s3BucketExists_none (env : S3Env) (d : S3Cfg) (b : String) (d1 : S3Cfg)
    (tr : List Ev) (hb : ¬b = "")
    (heq : s3BucketExists env d b = (d1, none, tr)) : env.headBucket = none := by
  unfold s3BucketExists at heq
  rw [if_neg hb] at heq
  rcases hg : getS3Service env d with ⟨d', r⟩
  rw [hg] at heq
  rcases r with _ | e
  · exact (Prod.mk.injEq .. ▸ congrArg Prod.snd heq).1.symm ▸ rfl
  · simp at heq

/-- If the S3 `CreateStorage` tail changed the status mirror, the existence
wait succeeded. -/
theorem s3CreateFinish_mirror (env : S3Env) (infra : String) (d : S3Cfg) (cr : Config)
    (tr : List Ev)
    (h : (s3CreateFinish env infra d cr tr).cr.status.storage.s3 ≠ cr.status.storage.s3) :
    env.wait = none := by
  unfold s3CreateFinish at h
  simp only [] at h
  repeat' split at h
  all_goals first
  | exact absurd rfl h
  | (simp only [setCond] at h; exact absurd rfl h)
  | assumption

/-- Chaining the previous lemma through an earlier resource state. -/
theorem s3CreateFinish_mirror_chain (env : S3Env) (infra : String) (d : S3Cfg)
    (cr cr0 : Config) (tr : List Ev)
    (h : (s3CreateFinish env infra d cr tr).cr.status.storage.s3
      ≠ cr0.status.storage.s3) :
    env.wait = none ∨ cr.status.storage.s3 ≠ cr0.status.storage.s3 := by
  by_cases hx : cr.status.storage.s3 = cr0.status.storage.s3
  · refine Or.inl (s3CreateFinish_mirror env infra d cr tr ?_)
    rw [hx]
    exact h
  · exact Or.inr hx

/-- If the Azure `RemoveStorage` changed the status mirror, a deletion call
succeeded or the account was already gone. -/
theorem azureRemoveStorage_mirror (env : AzureEnv) (d : AzureCfg) (cr : Config)
    (h : (azureRemoveStorage env d cr).cr.status.storage.azure
      ≠ cr.status.storage.azure) :
    azureMirrorClearJustified env := by
  unfold azureRemoveStorage at h
  simp only [] at h
  split at h
  · exact absurd rfl h
  · split at h
    · simp only [setCond] at h
      exact absurd rfl h
    · split at h
      · simp only [setCond] at h
        exact absurd rfl h
      · split at h
        · simp only [setCond] at h
          exact absurd rfl h
        · by_cases hc : d.container ≠ ""
          · simp only [if_pos hc] at h
            split at h
            · rename_i out hcp
              split at hcp
              all_goals first
              | (injection hcp with h2
                 subst h2
                 simp only [setCond] at h
                 exact absurd rfl h)
              | exact Option.noConfusion hcp
              | (rename_i e hk
                 exact Or.inr (Or.inr ⟨e, hk⟩))
              | (split at hcp
                 all_goals first
                 | (injection hcp with h2
                    subst h2
                    simp only [setCond] at h
                    exact absurd rfl h)
                 | exact Option.noConfusion hcp)
            · rename_i hcp
              split at hcp
              all_goals first
              | exact Option.noConfusion hcp
              | (split at hcp
                 all_goals first
                 | exact Option.noConfusion hcp
                 | (rename_i hdc
                    exact Or.inl hdc))
          · simp only [if_neg hc] at h
            split at h
            · simp only [setCond] at h
              exact absurd rfl h
            · rename_i hda
              exact Or.inr (Or.inl hda)

/-- If the S3 `RemoveStorage` changed the status mirror, the deletion and the
not-exists wait both succeeded. -/
theorem s3RemoveStorage_mirror (env : S3Env) (d : S3Cfg) (cr : Config)
    (h : (s3RemoveStorage env d cr).cr.status.storage.s3 ≠ cr.status.storage.s3) :
    env.deleteBucket = none ∧ env.waitNotExists = none := by
  unfold s3RemoveStorage at h
  simp only [] at h
  repeat' split at h
  all_goals first
  | exact absurd rfl h
  | (simp only [setCond] at h; exact absurd rfl h)
  | simp_all [setCond, clearS3Bucket]

/-- If the Azure `CreateStorage` changed the status mirror, one of the
justifying situations held: the UPI path, a successful generated-name
creation, a successful or name-not-available provided-name creation, or a
successful container creation. -/
theorem azureCreateStorage_mirror (env : AzureEnv) (d : AzureCfg) (cr : Config)
    (h : (azureCreateStorage env d cr).cr.status.storage.azure
      ≠ cr.status.storage.azure) :
    azureMirrorWriteJustified env d := by
  unfold azureCreateStorage at h
  simp only [] at h
  split at h
  · simp only [setCond] at h
    exact absurd rfl h
  · rename_i cfg hg
    split at h
    · rename_i hk
      split at h
      · simp only [setCond] at h
        exact absurd rfl h
      · split at h
        · simp only [setCond] at h
          exact absurd rfl h
        · exact Or.inl ⟨cfg, hg, hk⟩
    · split at h
      · simp only [setCond] at h
        exact absurd rfl h
      · by_cases ha : d.accountName = ""
        · rw [if_pos ha] at h
          rcases hi : env.infraName with e | infra
          · simp only [hi, setCond] at h
            exact absurd rfl h
          · simp only [hi] at h
            split at h
            · rename_i d1 cr1 e tr heq
              split at heq
              · injection heq with h1 h2 h3 h4
                rw [← h2] at h
                exact Or.inr (Or.inl (azureCreateLoop_mirror env infra 10 d cr none 0 h))
              · split at heq
                · injection heq with h1 h2 h3 h4
                  rw [← h2] at h
                  simp only [setCond] at h
                  exact Or.inr (Or.inl (azureCreateLoop_mirror env infra 10 d cr none 0 h))
                · injection heq with h1 h2 h3 h4
                  exact Option.noConfusion h3
            · rename_i d1 cr1 tr heq
              have hcr1 : cr1.status.storage.azure
                  = (azureCreateLoop env infra d cr none 0 10).cr.status.storage.azure := by
                split at heq
                · injection heq with h1 h2 h3 h4
                  exact Option.noConfusion h3
                · split at heq
                  · injection heq with h1 h2 h3 h4
                    exact Option.noConfusion h3
                  · injection heq with h1 h2 h3 h4
                    rw [← h2]
              split at h
              · split at h
                · simp only [setCond] at h
                  rw [hcr1] at h
                  exact Or.inr (Or.inl (azureCreateLoop_mirror env infra 10 d cr none 0 h))
                · split at h
                  · simp only [setCond] at h
                    rw [hcr1] at h
                    exact Or.inr
                      (Or.inl (azureCreateLoop_mirror env infra 10 d cr none 0 h))
                  · rename_i heqc
                    exact Or.inr (Or.inr (Or.inr (Or.inr heqc)))
              · simp only [setCond] at h
                rw [hcr1] at h
                exact Or.inr (Or.inl (azureCreateLoop_mirror env infra 10 d cr none 0 h))
        · rw [if_neg ha] at h
          rcases hp : env.createAccountProvided d.accountName with _ | e
          · exact Or.inr (Or.inr (Or.inl hp))
          · simp only [hp] at h
            split at h
            · rename_i d1 cr1 e1 tr heq
              split at heq
              · injection heq with h1 h2 h3 h4
                exact Option.noConfusion h3
              · injection heq with h1 h2 h3 h4
                rw [← h2] at h
                simp only [setCond] at h
                exact absurd rfl h
            · rename_i d1 cr1 tr heq
              split at heq
              · rename_i n m
                exact Or.inr (Or.inr (Or.inr (Or.inl ⟨n, m, hp⟩)))
              · injection heq with h1 h2 h3 h4
                exact Option.noConfusion h3

/-- Lifting the S3 loop-mirror lemma into the justification predicate. -/
theorem s3CreateLoop_mirror_justified (env : S3Env) (infra : String) (fuel : Nat)
    (d : S3Cfg) (cr : Config) (gn : Bool) (i : Nat)
    (h : (s3CreateLoop env infra d cr gn i fuel).cr.status.storage.s3
      ≠ cr.status.storage.s3) : s3MirrorWriteJustified env := by
  rcases s3CreateLoop_mirror env infra fuel d cr gn i h with h1 | h2 | h3
  · exact Or.inr (Or.inl h1)
  · exact Or.inr (Or.inr (Or.inr (Or.inl h2)))
  · exact Or.inr (Or.inr (Or.inr (Or.inr h3)))

/-- If the S3 `CreateStorage` changed the status mirror, one of the
justifying situations held: a successful head probe, a successful creation,
a successful existence wait, or one of the two creation-failure
fall-throughs. -/
theorem s3CreateStorage_mirror (env : S3Env) (d : S3Cfg) (cr : Config)
    (h : (s3CreateStorage env d cr).cr.status.storage.s3 ≠ cr.status.storage.s3) :
    s3MirrorWriteJustified env := by
  unfold s3CreateStorage at h
  simp only [] at h
  rcases hs : getS3Service env d with ⟨d0, r⟩
  rw [hs] at h
  rcases r with _ | e
  · rcases hi : env.infraName with e | infra
    · simp only [hi] at h
      exact absurd rfl h
    · simp only [hi] at h
      by_cases hb : d0.bucket = ""
      · rw [if_neg (not_not_intro hb)] at h
        simp only [] at h
        split at h
        · rename_i hcond
          exact absurd hcond.2 (by simp)
        · split at h
          · exact s3CreateLoop_mirror_justified env infra 5000 _ _ false 0 h
          · split at h
            · simp only [setCond] at h
              exact s3CreateLoop_mirror_justified env infra 5000 _ _ false 0 h
            · rcases s3CreateFinish_mirror_chain env infra _ _ cr _ h with hw | hmid
              · exact Or.inr (Or.inr (Or.inl hw))
              · exact s3CreateLoop_mirror_justified env infra 5000 _ _ false 0 hmid
      · rw [if_pos hb] at h
        rcases hbe : s3BucketExists env d0 d0.bucket with ⟨d1, er, tr⟩
        rw [hbe] at h
        rcases er with _ | e
        · simp only [] at h
          split at h
          · exact Or.inl (s3BucketExists_none env d0 d0.bucket d1 tr hb hbe)
          · split at h
            · exact s3CreateLoop_mirror_justified env infra 5000 _ _ false 0 h
            · split at h
              · simp only [setCond] at h
                exact s3CreateLoop_mirror_justified env infra 5000 _ _ false 0 h
              · rcases s3CreateFinish_mirror_chain env infra _ _ cr _ h with hw | hmid
                · exact Or.inr (Or.inr (Or.inl hw))
                · exact s3CreateLoop_mirror_justified env infra 5000 _ _ false 0 hmid
        · rcases e with s | _ | ⟨rs, cause⟩ | ⟨n, m⟩ | cause | ⟨code, m⟩ | ⟨sc, sm⟩
          · simp only [setCond] at h
            exact absurd rfl h
          · simp only [setCond] at h
            exact absurd rfl h
          · simp only [setCond] at h
            exact absurd rfl h
          · simp only [setCond] at h
            exact absurd rfl h
          · simp only [setCond] at h
            exact absurd rfl h
          · simp only [] at h
            by_cases hnf : s3IsNotFoundCode code = true
            · rw [if_pos hnf] at h
              simp only [] at h
              split at h
              · rename_i hcond
                exact absurd hcond.2 (by simp)
              · split at h
                · exact s3CreateLoop_mirror_justified env infra 5000 _ _ false 0 h
                · split at h
                  · simp only [setCond] at h
                    exact s3CreateLoop_mirror_justified env infra 5000 _ _ false 0 h
                  · rcases s3CreateFinish_mirror_chain env infra _ _ cr _ h
                      with hw | hmid
                    · exact Or.inr (Or.inr (Or.inl hw))
                    · exact s3CreateLoop_mirror_justified env infra 5000 _ _ false 0 hmid
            · rw [if_neg hnf] at h
              simp only [setCond] at h
              exact absurd rfl h
          · simp only [setCond] at h
            exact absurd rfl h
  · simp only [] at h
    exact absurd rfl h

/-! ## Claims -/

/-- C2: in managed (IPI) mode with no account/bucket identifier configured,
`CreateStorage` retries generation-and-creation on naming collisions with a
fresh name, up to exactly 10 attempts (Azure) and exactly 5000 attempts (S3);
if every attempt collides, the Azure driver sets `StorageExists` to False
with reason `AzureError` and returns an error carrying the last collision,
and the S3 driver sets `StorageExists` to False with reason "Unable to
Generate Unique Bucket Name" and returns the bucket-name-exhaustion error;
in both drivers every provider call in the run failed. -/
theorem c2_create_storage_collision_bounds (envA : AzureEnv) (envS : S3Env)
    (dA : AzureCfg) (dS : S3Cfg) (crA crS : Config) (cfg : AzureCreds)
    (infraA region infraS : String) (msgA msgS : Nat → String)
    (hg : envA.getConfig = .ok cfg) (hkey : cfg.accountKey = "")
    (hclient : envA.accountsClient = none) (hda : dA.accountName = "")
    (hinfA : envA.infraName = .ok infraA)
    (hcolA : ∀ i n, envA.createAccountAt i n = some (.nameNotAvailable n (msgA i)))
    (hs3 : envS.getS3 = .ok region) (hdb : dS.bucket = "")
    (hinfS : envS.infraName = .ok infraS)
    (hcolS : ∀ i nm, envS.createBucket i nm = some (.aws "BucketAlreadyExists" (msgS i))) :
    ((azureCreateStorage envA dA crA).res =
      some (.str ("attmpts to create storage account failed, last error: "
        ++ Err.message (.nameNotAvailable (generateAccountName infraA (envA.randSuffix 9))
            (msgA 9)))) ∧
     (azureCreateStorage envA dA crA).cr =
      setCond envA.now condTypeStorageExists .ctFalse storageExistsReasonAzureError
        ("Unable to create storage account: "
          ++ Err.message (.nameNotAvailable (generateAccountName infraA (envA.randSuffix 9))
              (msgA 9))) crA ∧
     ((azureCreateStorage envA dA crA).trace.filter Ev.isAzCreateAccount).length = 10 ∧
     (∀ ev ∈ (azureCreateStorage envA dA crA).trace, ev.isProviderSuccess = false)) ∧
    ((s3CreateStorage envS dS crS).res
      = some (.str "unable to generate a unique s3 bucket name") ∧
     (s3CreateStorage envS dS crS).cr =
      setCond envS.now condTypeStorageExists .ctFalse
        "Unable to Generate Unique Bucket Name" "" crS ∧
     ((s3CreateStorage envS dS crS).trace.filter Ev.isS3CreateBucket).length = 5000 ∧
     (∀ ev ∈ (s3CreateStorage envS dS crS).trace, ev.isProviderSuccess = false)) :=
  ⟨azureCreateStorage_collision_exhaustion envA dA crA cfg infraA msgA
      hg hkey hclient hda hinfA hcolA,
   s3CreateStorage_collision_exhaustion envS dS crS region infraS msgS
      hs3 hdb hinfS hcolS⟩

/-- C2 witness: the theorem at concrete always-colliding oracles — the error
and the exact 10 / 5000 failed creation attempts. -/
theorem c2_create_storage_collision_bounds_witness :
    (azureCreateStorage azureEnvCollide ⟨"", ""⟩ crFix).res =
      some (.str ("attmpts to create storage account failed, last error: "
        ++ Err.message (.nameNotAvailable
            (generateAccountName "infra" (azureEnvCollide.randSuffix 9)) "taken"))) ∧
    ((azureCreateStorage azureEnvCollide ⟨"", ""⟩ crFix).trace.filter
      Ev.isAzCreateAccount).length = 10 ∧
    (s3CreateStorage s3EnvCollide ⟨"", "us", "", "", false⟩ crFix).res
      = some (.str "unable to generate a unique s3 bucket name") ∧
    ((s3CreateStorage s3EnvCollide ⟨"", "us", "", "", false⟩ crFix).trace.filter
      Ev.isS3CreateBucket).length = 5000 :=
  ⟨(c2_create_storage_collision_bounds azureEnvCollide s3EnvCollide ⟨"", ""⟩
      ⟨"", "us", "", "", false⟩ crFix crFix ⟨"", "rg", "r"⟩ "infra" "us-east-1" "infra"
      (fun _ => "taken") (fun _ => "taken") rfl rfl rfl rfl rfl (fun _ _ => rfl)
      rfl rfl rfl (fun _ _ => rfl)).1.1,
   (c2_create_storage_collision_bounds azureEnvCollide s3EnvCollide ⟨"", ""⟩
      ⟨"", "us", "", "", false⟩ crFix crFix ⟨"", "rg", "r"⟩ "infra" "us-east-1" "infra"
      (fun _ => "taken") (fun _ => "taken") rfl rfl rfl rfl rfl (fun _ _ => rfl)
      rfl rfl rfl (fun _ _ => rfl)).1.2.2.1,
   (c2_create_storage_collision_bounds azureEnvCollide s3EnvCollide ⟨"", ""⟩
      ⟨"", "us", "", "", false⟩ crFix crFix ⟨"", "rg", "r"⟩ "infra" "us-east-1" "infra"
      (fun _ => "taken") (fun _ => "taken") rfl rfl rfl rfl rfl (fun _ _ => rfl)
      rfl rfl rfl (fun _ _ => rfl)).2.1,
   (c2_create_storage_collision_bounds azureEnvCollide s3EnvCollide ⟨"", ""⟩
      ⟨"", "us", "", "", false⟩ crFix crFix ⟨"", "rg", "r"⟩ "infra" "us-east-1" "infra"
      (fun _ => "taken") (fun _ => "taken") rfl rfl rfl rfl rfl (fun _ _ => rfl)
      rfl rfl rfl (fun _ _ => rfl)).2.2.2.1⟩

/-- C7: for every infrastructure-name input and every 5-character alphanumeric
random suffix, `generateAccountName` yields a string whose characters all lie
in `[0-9a-z]` (hence entirely lowercase) of length at most 24, and for the
input `"abc-123!!"` the first six characters are `abc123` (the input with its
invalid characters stripped). -/
theorem c7_generate_account_name (inp suffix : String)
    (h5 : suffix.length = 5)
    (halpha : ∀ c ∈ suffix.data, c.isAlphanum = true) :
    ((generateAccountName inp suffix).data.all fun c => c.isDigit || c.isLower) = true ∧
    (generateAccountName inp suffix).length ≤ 24 ∧
    (generateAccountName "abc-123!!" suffix).data.take 6 = "abc123".data := by
  refine ⟨?_, ?_, ?_⟩
  · rw [List.all_eq_true]
    intro c hc
    unfold generateAccountName at hc
    simp only [String.data] at hc
    rw [List.mem_map] at hc
    obtain ⟨c', hc', rfl⟩ := hc
    rw [show (accountNameTrunc (accountNameBase inp) ++ suffix).data
        = (accountNameTrunc (accountNameBase inp)).data ++ suffix.data from rfl,
      List.mem_append] at hc'
    rcases hc' with h | h
    · exact toLower_of_alphanum c' (accountNameBase_alphanum inp c' (accountNameTrunc_mem _ c' h))
    · exact toLower_of_alphanum c' (halpha c' h)
  · show ((accountNameTrunc (accountNameBase inp) ++ suffix).data.map Char.toLower).length ≤ 24
    rw [List.length_map,
      show (accountNameTrunc (accountNameBase inp) ++ suffix).data
        = (accountNameTrunc (accountNameBase inp)).data ++ suffix.data from rfl,
      List.length_append]
    have h5' : suffix.data.length = 5 := h5
    have hl : (accountNameTrunc (accountNameBase inp)).data.length ≤ 19 :=
      accountNameTrunc_len (accountNameBase inp)
    omega
  · show ((accountNameTrunc (accountNameBase "abc-123!!") ++ suffix).data.map Char.toLower).take 6
      = "abc123".data
    have hb : accountNameTrunc (accountNameBase "abc-123!!") = "abc123" := by decide
    rw [hb]
    rw [show (("abc123" : String) ++ suffix).data = "abc123".data ++ suffix.data from rfl]
    rw [List.map_append]
    have h6 : ("abc123".data.map Char.toLower).length = 6 := by decide
    rw [← h6, List.take_left]
    decide

/-- C6: when `status.storageManaged` is not `true`, `RemoveStorage` of either
driver returns `(false, nil)` immediately: no provider call happens (empty
trace), and neither the resource (spec, status, conditions) nor the driver
config is touched. -/
theorem c6_remove_storage_noop_when_unmanaged (envA : AzureEnv) (envS : S3Env)
    (dA : AzureCfg) (dS : S3Cfg) (cr : Config)
    (h : cr.status.storageManaged = false) :
    azureRemoveStorage envA dA cr = ⟨dA, cr, (false, none), []⟩ ∧
    s3RemoveStorage envS dS cr = ⟨dS, cr, (false, none), []⟩ := by
  constructor
  · unfold azureRemoveStorage
    rw [h]
    simp
  · unfold s3RemoveStorage
    rw [h]
    simp

/-- C6 witness: the theorem at a concrete unmanaged resource. -/
theorem c6_remove_storage_noop_when_unmanaged_witness :
    crFix.status.storageManaged = false ∧
    azureRemoveStorage azureEnvUpi ⟨"acct", "cont"⟩ crFix
      = ⟨⟨"acct", "cont"⟩, crFix, (false, none), []⟩ ∧
    s3RemoveStorage s3EnvFix ⟨"bkt", "us", "", "", false⟩ crFix
      = ⟨⟨"bkt", "us", "", "", false⟩, crFix, (false, none), []⟩ :=
  ⟨rfl,
    (c6_remove_storage_noop_when_unmanaged azureEnvUpi s3EnvFix ⟨"acct", "cont"⟩
      ⟨"bkt", "us", "", "", false⟩ crFix rfl).1,
    (c6_remove_storage_noop_when_unmanaged azureEnvUpi s3EnvFix ⟨"acct", "cont"⟩
      ⟨"bkt", "us", "", "", false⟩ crFix rfl).2⟩

/-- C5: in user-managed (UPI) mode — `GetConfig` yields a non-empty account
key — the Azure `CreateStorage` with a missing account name or container sets
the `StorageExists` condition to False with reason `StorageNotConfigured` and
returns nil without any provider call, leaving `status.storageManaged` (and
everything else but the condition) untouched; with both present it sets
`storageManaged := false`, records the driver config into
`status.storage.azure`, and sets the condition with reason `UserManaged`. -/
theorem c5_upi_create_storage (env : AzureEnv) (d : AzureCfg) (cr : Config)
    (cfg : AzureCreds) (hcfg : env.getConfig = .ok cfg) (hk : cfg.accountKey ≠ "") :
    (d.accountName = "" →
      azureCreateStorage env d cr =
        ⟨d, setCond env.now condTypeStorageExists .ctFalse storageExistsReasonNotConfigured
              "Storage account key is provided, but account name is not specified" cr,
          none, []⟩) ∧
    (d.accountName ≠ "" → d.container = "" →
      azureCreateStorage env d cr =
        ⟨d, setCond env.now condTypeStorageExists .ctFalse storageExistsReasonNotConfigured
              "Storage account is provided, but container is not specified" cr,
          none, []⟩) ∧
    (d.accountName ≠ "" → d.container ≠ "" →
      azureCreateStorage env d cr =
        ⟨d, setCond env.now condTypeStorageExists .ctTrue storageExistsReasonUserManaged
              "Storage is managed by the user"
              { cr with status.storageManaged := false, status.storage.azure := some d },
          none, []⟩) := by
  refine ⟨?_, ?_, ?_⟩ <;> unfold azureCreateStorage <;> rw [hcfg]
  · intro h1
    simp [hk, h1]
  · intro h1 h2
    simp [hk, h1, h2]
  · intro h1 h2
    simp [hk, h1, h2]

/-- C5 witness: only an access key is supplied (empty account name); the call
returns nil, records the NotConfigured condition, and leaves
`status.storageManaged` false. -/
theorem c5_upi_create_storage_witness :
    azureEnvUpi.getConfig = .ok azureCredsUpi ∧ azureCredsUpi.accountKey ≠ "" ∧
    azureCreateStorage azureEnvUpi ⟨"", ""⟩ crFix =
      ⟨⟨"", ""⟩,
        setCond azureEnvUpi.now condTypeStorageExists .ctFalse storageExistsReasonNotConfigured
          "Storage account key is provided, but account name is not specified" crFix,
        none, []⟩ :=
  ⟨rfl, by decide,
    (c5_upi_create_storage azureEnvUpi ⟨"", ""⟩ crFix azureCredsUpi rfl (by decide)).1 rfl⟩

/-- C3 counterexample: with an empty bucket name the S3 `StorageExists`
returns `(false, nil)` but does not update the `StorageExists` condition —
the resource comes back unchanged, with its condition list still empty —
contradicting the claim that every outcome updates the condition. -/
theorem c3_storage_exists_counterexample :
    (s3StorageExists s3EnvFix ⟨"", "us", "", "", false⟩ crFix).res = (false, none) ∧
    (s3StorageExists s3EnvFix ⟨"", "us", "", "", false⟩ crFix).cr = crFix ∧
    crFix.status.conditions = [] := by decide

/-- C3 (amended): `StorageExists` of both drivers returns `(false, nil)` for
not-configured and not-found storage, `(true, nil)` exactly on a successful
probe, and a non-nil error only for unexpected failures; the Azure driver
records a `StorageExists` condition with a reason from the fixed enum on
every outcome, while the S3 driver does so on every outcome except its
not-configured (empty bucket name) branch, which leaves the resource
untouched. -/
theorem c3_storage_exists_outcomes (envA : AzureEnv) (envS : S3Env)
    (dA : AzureCfg) (dS : S3Cfg) (cr : Config) :
    ((dA.accountName = "" ∨ dA.container = "") →
      azureStorageExists envA dA cr =
        ⟨dA, setCond envA.now condTypeStorageExists .ctFalse storageExistsReasonNotConfigured
              "Storage is not configured" cr, (false, none), []⟩) ∧
    ((azureStorageExists envA dA cr).res.1 = true →
      (azureStorageExists envA dA cr).res.2 = none) ∧
    (∃ st r m, r ∈ azureExistsReasonEnum ∧
      (azureStorageExists envA dA cr).cr = setCond envA.now condTypeStorageExists st r m cr) ∧
    ((azureStorageExists envA dA cr).res.2 ≠ none →
      dA.accountName ≠ "" ∧ dA.container ≠ "" ∧ azureExistsUnexpected envA) ∧
    (∀ cfg m, ¬(dA.accountName = "" ∨ dA.container = "") →
      envA.getConfig = .ok cfg → cfg.accountKey ≠ "" → envA.sharedKeyCred = none →
      envA.urlParse = none →
      envA.getProperties = some (.azStorage "ContainerNotFound" m) →
      (azureStorageExists envA dA cr).res = (false, none)) ∧
    (∀ cfg, ¬(dA.accountName = "" ∨ dA.container = "") →
      envA.getConfig = .ok cfg → cfg.accountKey ≠ "" → envA.sharedKeyCred = none →
      envA.urlParse = none → envA.getProperties = none →
      (azureStorageExists envA dA cr).res = (true, none)) ∧
    (dS.bucket = "" → s3StorageExists envS dS cr = ⟨dS, cr, (false, none), []⟩) ∧
    ((s3StorageExists envS dS cr).res.1 = true → (s3StorageExists envS dS cr).res.2 = none) ∧
    (dS.bucket ≠ "" → ∃ st r m,
      (s3StorageExists envS dS cr).cr = setCond envS.now condTypeStorageExists st r m cr) ∧
    ((s3StorageExists envS dS cr).res.2 ≠ none → s3ExistsUnexpected envS) ∧
    (∀ region code m, dS.bucket ≠ "" → envS.getS3 = .ok region →
      envS.headBucket = some (.aws code m) → s3IsNotFoundCode code = true →
      (s3StorageExists envS dS cr).res = (false, none)) ∧
    (∀ region, dS.bucket ≠ "" → envS.getS3 = .ok region → envS.headBucket = none →
      (s3StorageExists envS dS cr).res = (true, none)) :=
  ⟨fun h => azureStorageExists_notConfigured envA dA cr h,
   azureStorageExists_true_imp_nil envA dA cr,
   azureStorageExists_cond envA dA cr,
   azureStorageExists_err envA dA cr,
   fun cfg m h0 hg hk hc hu hp =>
     (azureStorageExists_notFound envA dA cr cfg m h0 hg hk hc hu hp).1,
   fun cfg h0 hg hk hc hu hp =>
     (azureStorageExists_success envA dA cr cfg h0 hg hk hc hu hp).1,
   fun h => s3StorageExists_notConfigured envS dS cr h,
   s3StorageExists_true_imp_nil envS dS cr,
   fun hb => s3StorageExists_cond envS dS cr hb,
   s3StorageExists_err envS dS cr,
   fun region code m hb hcfg hh hcode =>
     (s3StorageExists_notFound envS dS cr region code m hb hcfg hh hcode).1,
   fun region hb hcfg hh => (s3StorageExists_success envS dS cr region hb hcfg hh).1⟩

/-- C3 witness: the successful-probe conjuncts of the theorem at concrete
inputs. -/
theorem c3_storage_exists_outcomes_witness :
    (azureStorageExists azureEnvUpi ⟨"acct", "cont"⟩ crFix).res = (true, none) ∧
    (s3StorageExists s3EnvFix ⟨"bkt", "us", "", "", false⟩ crFix).res = (true, none) :=
  ⟨(c3_storage_exists_outcomes azureEnvUpi s3EnvFix ⟨"acct", "cont"⟩
      ⟨"bkt", "us", "", "", false⟩ crFix).2.2.2.2.2.1 azureCredsUpi
      (by decide) rfl (by decide) rfl rfl rfl,
   (c3_storage_exists_outcomes azureEnvUpi s3EnvFix ⟨"acct", "cont"⟩
      ⟨"bkt", "us", "", "", false⟩ crFix).2.2.2.2.2.2.2.2.2.2.2 "us-east-1"
      (by decide) rfl rfl⟩

/-- C8 counterexample: `StorageChanged` of the S3 driver is not free of side
effects on the resource — on a resource whose mirrors differ it returns true
but also mutates the resource (it records a `StorageExists` condition with
reason "S3 Configuration Changed"). -/
theorem c8_storage_changed_counterexample :
    (s3StorageChanged 0 crS3Changed).1 = true ∧
    (s3StorageChanged 0 crS3Changed).2 ≠ crS3Changed := by decide

/-- C8 (amended): both drivers return true iff the status mirror of the
active provider variant is structurally unequal to the spec mirror.  The
Azure check is pure (a plain function of the resource).  The S3 check is pure
except that, when it returns true, it additionally sets the `StorageExists`
condition to Unknown with reason "S3 Configuration Changed". -/
theorem c8_storage_changed (now : Nat) (cr : Config) :
    (azureStorageChanged cr = true ↔ cr.status.storage.azure ≠ cr.spec.storage.azure) ∧
    ((s3StorageChanged now cr).1 = true ↔ cr.status.storage.s3 ≠ cr.spec.storage.s3) ∧
    (s3StorageChanged now cr).2 =
      (if cr.status.storage.s3 ≠ cr.spec.storage.s3 then
        setCond now condTypeStorageExists .ctUnknown "S3 Configuration Changed"
          "S3 storage is in an unknown state" cr
      else cr) := by
  unfold azureStorageChanged s3StorageChanged
  by_cases ha : cr.status.storage.azure = cr.spec.storage.azure <;>
    by_cases hs : cr.status.storage.s3 = cr.spec.storage.s3 <;>
      simp [ha, hs]

/-- C7 witness: the theorem instantiated at the spec's example input with the
concrete suffix `"abc12"`. -/
theorem c7_generate_account_name_witness :
    ("abc12" : String).length = 5 ∧
    ((generateAccountName "abc-123!!" "abc12").data.all fun c => c.isDigit || c.isLower) = true ∧
    (generateAccountName "abc-123!!" "abc12").length ≤ 24 ∧
    (generateAccountName "abc-123!!" "abc12").data.take 6 = "abc123".data :=
  ⟨rfl,
    (c7_generate_account_name "abc-123!!" "abc12" rfl (by decide)).1,
    (c7_generate_account_name "abc-123!!" "abc12" rfl (by decide)).2.1,
    (c7_generate_account_name "abc-123!!" "abc12" rfl (by decide)).2.2⟩

/-- C10: in the S3 creation loop with a user-supplied (non-generated) bucket
name, a `BucketAlreadyExists` failure still runs the success tail of the
iteration — the `break` exits only the switch: the run records the "Unable to
Access Bucket" condition, immediately followed by the "Creation Successful"
condition, sets `status.storageManaged := true`, copies the driver config
into both `spec.storage.s3` and `status.storage.s3`, and `CreateStorage`
returns nil — although no bucket-creation call ever succeeded. -/
theorem c10_s3_already_exists_break (env : S3Env) (d : S3Cfg) (cr : Config)
    (region infra mh mc : String)
    (hs3 : env.getS3 = .ok region) (hreg : ¬d.region = "") (hb : ¬d.bucket = "")
    (hinfra : env.infraName = .ok infra)
    (hhead : env.headBucket = some (.aws "NotFound" mh))
    (hcb : env.createBucket 0 d.bucket = some (.aws "BucketAlreadyExists" mc))
    (hw : env.wait = none) (hpab : env.putPublicAccessBlock = none)
    (htag : env.putBucketTagging = none) (henc : env.putBucketEncryption = none)
    (hlc : env.putLifecycle = none) :
    (s3CreateStorage env d cr).res = none ∧
    (s3CreateStorage env d cr).cr.status.storageManaged = true ∧
    (s3CreateStorage env d cr).cr.status.storage.s3 = some ({ d with encrypt := true }) ∧
    (s3CreateStorage env d cr).cr.spec.storage.s3 = some ({ d with encrypt := true }) ∧
    (∃ pre post, (s3CreateStorage env d cr).trace =
      pre ++ [Ev.cond condTypeStorageExists .ctFalse "Unable to Access Bucket",
              Ev.cond condTypeStorageExists .ctTrue "Creation Successful"] ++ post) ∧
    (∀ n, Ev.s3CreateBucket n none ∉ (s3CreateStorage env d cr).trace) := by
  have hd0 : getS3Service env d = (d, none) := by
    unfold getS3Service
    rw [hs3]
    simp [hreg]
  have hbex : s3BucketExists env d d.bucket
      = (d, some (.aws "NotFound" mh), [Ev.s3HeadBucket (some (.aws "NotFound" mh))]) := by
    unfold s3BucketExists
    rw [if_neg hb, hd0, hhead]
  have hloop := s3CreateLoop_user_collision_step env infra d
    (setCond env.now condTypeStorageExists .ctFalse "NotFound" (Err.aws "NotFound" mh).message cr)
    0 4999 mc hb hcb
  have hloop5000 : s3CreateLoop env infra d
      (setCond env.now condTypeStorageExists .ctFalse "NotFound"
        (Err.aws "NotFound" mh).message cr) false 0 5000 = _ := hloop
  have hnf : s3IsNotFoundCode "NotFound" = true := by decide
  have hmain : s3CreateStorage env d cr
      = s3CreateFinish env infra d
          (setCond env.now condTypeStorageExists .ctTrue "Creation Successful"
            "S3 bucket was successfully created"
            { (setCond env.now condTypeStorageExists .ctFalse "Unable to Access Bucket"
                "The bucket exists, but we do not have permission to access it"
                (setCond env.now condTypeStorageExists .ctFalse "NotFound"
                  (Err.aws "NotFound" mh).message cr)) with
              status.storageManaged := true,
              status.storage.s3 := some d,
              spec.storage.s3 := some d })
          ([Ev.s3HeadBucket (some (.aws "NotFound" mh)),
            Ev.cond condTypeStorageExists .ctFalse "NotFound"]
           ++ [Ev.s3CreateBucket d.bucket (some (.aws "BucketAlreadyExists" mc)),
               Ev.cond condTypeStorageExists .ctFalse "Unable to Access Bucket",
               Ev.cond condTypeStorageExists .ctTrue "Creation Successful"]) := by
    unfold s3CreateStorage
    rw [hd0]
    simp only [hinfra, hbex, ne_eq, hb, not_false_eq_true, ite_true, if_true, reduceIte,
      hnf, if_false, ite_false, and_false, false_and, hloop5000, Bool.false_eq_true,
      true_and]
    rfl
  rw [hmain, s3CreateFinish_allOk env infra d _ _ hw hpab htag henc hlc rfl]
  refine ⟨rfl, rfl, rfl, rfl, ?_, ?_⟩
  · exact ⟨[Ev.s3HeadBucket (some (.aws "NotFound" mh)),
      Ev.cond condTypeStorageExists .ctFalse "NotFound",
      Ev.s3CreateBucket d.bucket (some (.aws "BucketAlreadyExists" mc))],
      [Ev.s3Wait none, Ev.s3PutPublicAccessBlock none,
       Ev.cond condTypePublicAccessBlocked .ctTrue "Public Access Block Successful",
       Ev.s3PutBucketTagging none,
       Ev.cond condTypeStorageTagged .ctTrue "Tagging Successful",
       Ev.s3PutBucketEncryption none,
       Ev.cond condTypeStorageEncrypted .ctTrue "Encryption Successful",
       Ev.s3PutLifecycle none,
       Ev.cond condTypeCleanupEnabled .ctTrue "Enable Cleanup Successful"], by simp⟩
  · intro n
    simp

/-- C10 witness: the theorem at a concrete oracle. -/
theorem c10_s3_already_exists_break_witness :
    (s3CreateStorage s3EnvC10 ⟨"mybkt", "us", "", "", false⟩ crFix).res = none ∧
    (s3CreateStorage s3EnvC10 ⟨"mybkt", "us", "", "", false⟩ crFix).cr.status.storageManaged
      = true ∧
    (s3CreateStorage s3EnvC10 ⟨"mybkt", "us", "", "", false⟩ crFix).cr.status.storage.s3
      = some ⟨"mybkt", "us", "", "", true⟩ :=
  ⟨(c10_s3_already_exists_break s3EnvC10 ⟨"mybkt", "us", "", "", false⟩ crFix
      "us-east-1" "infra" "nf" "ae" rfl (by decide) (by decide) rfl rfl rfl
      rfl rfl rfl rfl rfl).1,
   (c10_s3_already_exists_break s3EnvC10 ⟨"mybkt", "us", "", "", false⟩ crFix
      "us-east-1" "infra" "nf" "ae" rfl (by decide) (by decide) rfl rfl rfl
      rfl rfl rfl rfl rfl).2.1,
   (c10_s3_already_exists_break s3EnvC10 ⟨"mybkt", "us", "", "", false⟩ crFix
      "us-east-1" "infra" "nf" "ae" rfl (by decide) (by decide) rfl rfl rfl
      rfl rfl rfl rfl rfl).2.2.1⟩

/-- C1: when the apply step of a Managed-state sync fails, verification
failures and the storage-not-configured sentinel are wrapped as
`PermanentError` (reasons `VerificationFailed` / `StorageNotConfigured`),
other apply errors propagate unchanged; and — provided the rest of the sync
pipeline functions — `sync` returns nil for a permanent apply error, so the
work-queue key is forgotten, while every other non-nil apply error is
returned and the key is re-added with rate-limited backoff. -/
theorem c1_permanent_apply_errors_not_requeued (env : SyncEnv) (cr0 : Config)
    (hpx : ∀ e, env.proxyGet ≠ .err e)
    (hs1 : env.setenvNoProxy = none) (hs2 : env.setenvHTTPProxy = none)
    (hs3 : env.setenvHTTPSProxy = none)
    (hcr : env.crGet = .found cr0)
    (hdel : cr0.metadata.deletionTimestamp = none)
    (hm : cr0.spec.managementState = "Managed")
    (hdep : ∀ e, env.deployGet ≠ .err e)
    (h1 : env.clientNew1 = none) (hup : ∀ c, ∃ rv, env.update c = .ok rv)
    (h2 : env.clientNew2 = none) (hus : ∀ c, env.updateStatus c = none) :
    (∀ e, env.verifyResource (env.appendFinalizer cr0) = some e →
      (createOrUpdateResources env cr0).2 =
        some (.permanent "VerificationFailed"
          (.str ("unable to complete resource: " ++ e.message)))) ∧
    (env.verifyResource (env.appendFinalizer cr0) = none →
      (env.generatorApply (env.appendFinalizer cr0)).2 = some Err.errStorageNotConfigured →
      (createOrUpdateResources env cr0).2 =
        some (.permanent "StorageNotConfigured" Err.errStorageNotConfigured)) ∧
    (∀ e, env.verifyResource (env.appendFinalizer cr0) = none →
      (env.generatorApply (env.appendFinalizer cr0)).2 = some e →
      e ≠ Err.errStorageNotConfigured →
      (createOrUpdateResources env cr0).2 = some e) ∧
    ((sync env).2 = syncReturn (createOrUpdateResources env cr0).2) ∧
    (∀ e, (createOrUpdateResources env cr0).2 = some e → e.isPermanent = true →
      (sync env).2 = none ∧ processQueueKey env = QueueAction.forget) ∧
    (∀ e, (createOrUpdateResources env cr0).2 = some e → e.isPermanent = false →
      (sync env).2 = some e ∧ processQueueKey env = QueueAction.addRateLimited) := by
  have hsync := sync_managed_returns_filtered_applyError env cr0 hpx hs1 hs2 hs3 hcr
    hdel hm hdep h1 hup h2 hus
  refine ⟨?_, ?_, ?_, hsync, ?_, ?_⟩
  · intro e he
    unfold createOrUpdateResources
    rw [he]
    rfl
  · intro hv ha
    unfold createOrUpdateResources
    rw [hv]
    rcases hga : env.generatorApply (env.appendFinalizer cr0) with ⟨cr', ae⟩
    rw [hga] at ha
    have hae : ae = some Err.errStorageNotConfigured := ha
    subst hae
    rfl
  · intro e hv ha hne
    unfold createOrUpdateResources
    rw [hv]
    rcases hga : env.generatorApply (env.appendFinalizer cr0) with ⟨cr', ae⟩
    rw [hga] at ha
    have hae : ae = some e := ha
    subst hae
    cases e <;> first
    | rfl
    | exact absurd rfl hne
  · intro e he hperm
    constructor
    · rw [hsync, he]
      simp [syncReturn, hperm]
    · unfold processQueueKey
      rw [hsync, he]
      simp [syncReturn, hperm]
  · intro e he hperm
    constructor
    · rw [hsync, he]
      simp [syncReturn, hperm]
    · unfold processQueueKey
      rw [hsync, he]
      simp [syncReturn, hperm]

/-- C1 witness: with a failing verification the sync returns nil and the key
is forgotten; with a transient apply (network) error the sync returns the
error and the key is re-queued. -/
theorem c1_permanent_apply_errors_not_requeued_witness :
    ((sync syncEnvPermFix).2 = none ∧ processQueueKey syncEnvPermFix = QueueAction.forget) ∧
    ((sync syncEnvTransFix).2 = some (.str "network error") ∧
      processQueueKey syncEnvTransFix = QueueAction.addRateLimited) :=
  ⟨(c1_permanent_apply_errors_not_requeued syncEnvPermFix crFix
      (fun _ h => GetRes.noConfusion h) rfl rfl rfl rfl rfl rfl
      (fun _ h => GetRes.noConfusion h) rfl (fun _ => ⟨"43", rfl⟩) rfl
      (fun _ => rfl)).2.2.2.2.1
      (.permanent "VerificationFailed" (.str "unable to complete resource: incomplete"))
      rfl rfl,
   (c1_permanent_apply_errors_not_requeued syncEnvTransFix crFix
      (fun _ h => GetRes.noConfusion h) rfl rfl rfl rfl rfl rfl
      (fun _ h => GetRes.noConfusion h) rfl (fun _ => ⟨"43", rfl⟩) rfl
      (fun _ => rfl)).2.2.2.2.2
      (.str "network error") rfl rfl⟩

/-- C9: within one `sync`, every spec/metadata write precedes every
status-subresource write (the trace splits into spec updates followed by
status updates); a spec write happens only when metadata or spec changed
against the pre-mutation copy; a status write happens only when the status —
with `observedGeneration` set to `metadata.generation` before the diff —
actually changed. -/
theorem c9_sync_write_ordering (env : SyncEnv) :
    (∃ s t, (sync env).1 = s ++ t ∧
      (∀ ev ∈ s, ∃ p c, ev = SyncEvent.specUpdate p c) ∧
      (∀ ev ∈ t, ∃ p c, ev = SyncEvent.statusUpdate p c)) ∧
    (∀ p c, SyncEvent.specUpdate p c ∈ (sync env).1 →
      env.strategyMetadata p.metadata c.metadata = true ∨ p.spec ≠ c.spec) ∧
    (∀ p c, SyncEvent.statusUpdate p c ∈ (sync env).1 →
      p.status ≠ c.status ∧ c.status.observedGeneration = c.metadata.generation) := by
  rcases sync_trace_cases env with h | ⟨prevCR, cr, ae, h⟩
  · rw [h]
    exact ⟨⟨[], [], rfl, by simp, by simp⟩, by simp, by simp⟩
  · rw [h]
    refine ⟨syncPersist_trace_shape env prevCR cr ae, ?_, ?_⟩
    · intro p c hmem
      rcases syncPersist_mem env prevCR cr ae _ hmem with ⟨c', he, hcond⟩ | ⟨c', he, _, _⟩
      · obtain ⟨hp, hc⟩ := SyncEvent.specUpdate.inj he
        subst hp
        subst hc
        exact hcond
      · exact absurd he (by simp)
    · intro p c hmem
      rcases syncPersist_mem env prevCR cr ae _ hmem with ⟨c', he, _⟩ | ⟨c', he, hne, hog⟩
      · exact absurd he (by simp)
      · obtain ⟨hp, hc⟩ := SyncEvent.statusUpdate.inj he
        subst hp
        subst hc
        exact ⟨hne, hog⟩

/-- C9 witness: in the base fixture the one persisted write is a status
update whose recorded status genuinely differs and carries
`observedGeneration = metadata.generation`. -/
theorem c9_sync_write_ordering_witness :
    crFix.status ≠ (setObservedGeneration crFix).status ∧
    (setObservedGeneration crFix).status.observedGeneration
      = (setObservedGeneration crFix).metadata.generation :=
  (c9_sync_write_ordering syncEnvBase).2.2 crFix (setObservedGeneration crFix) (by decide)

/-- C4 counterexample: the Azure `CreateStorage` on a user-specified account
name whose `createStorageAccount` answers "name not available" rewrites
`status.storage.azure` although every provider call in the run failed — the
mirror is written after a failed provider operation, refuting the claim as
stated. -/
theorem c4_status_mirror_counterexample :
    (azureCreateStorage azureEnvC4 ⟨"acct", "cont"⟩ crFix).cr.status.storage.azure
        ≠ crFix.status.storage.azure ∧
    ((azureCreateStorage azureEnvC4 ⟨"acct", "cont"⟩ crFix).trace.all
        fun ev => !ev.isProviderSuccess) = true := by decide

/-- C4 (amended): the read-only operations (`StorageExists`, and
`StorageChanged` — the Azure one is pure and returns only a boolean) never
touch the status storage mirror, and whenever `CreateStorage` or
`RemoveStorage` rewrites the mirror one of the identified situations holds:
for Azure a successful account/container creation or deletion, the UPI
record path, the swallowed name-not-available answer on a user-specified
account, or the already-deleted-account path of removal; for S3 a successful
head probe, bucket creation, existence wait, deletion-plus-wait, or the
`BucketAlreadyExists`/non-AWS-error fall-throughs of the creation loop.  The
original "only immediately after a provider operation that just succeeded"
invariant fails exactly on the fall-through, name-not-available, and UPI
paths. -/
theorem c4_status_mirror_writes (envA : AzureEnv) (envS : S3Env)
    (dA : AzureCfg) (dS : S3Cfg) (cr : Config) :
    (azureStorageExists envA dA cr).cr.status.storage = cr.status.storage ∧
    (s3StorageExists envS dS cr).cr.status.storage = cr.status.storage ∧
    (s3StorageChanged envS.now cr).2.status.storage = cr.status.storage ∧
    ((azureCreateStorage envA dA cr).cr.status.storage.azure
        ≠ cr.status.storage.azure → azureMirrorWriteJustified envA dA) ∧
    ((s3CreateStorage envS dS cr).cr.status.storage.s3
        ≠ cr.status.storage.s3 → s3MirrorWriteJustified envS) ∧
    ((azureRemoveStorage envA dA cr).cr.status.storage.azure
        ≠ cr.status.storage.azure → azureMirrorClearJustified envA) ∧
    ((s3RemoveStorage envS dS cr).cr.status.storage.s3
        ≠ cr.status.storage.s3 →
      envS.deleteBucket = none ∧ envS.waitNotExists = none) :=
  ⟨azureStorageExists_mirror envA dA cr,
   s3StorageExists_mirror envS dS cr,
   s3StorageChanged_mirror envS.now cr,
   azureCreateStorage_mirror envA dA cr,
   s3CreateStorage_mirror envS dS cr,
   azureRemoveStorage_mirror envA dA cr,
   s3RemoveStorage_mirror envS dS cr⟩

/-- C4 witness: the amended theorem applied to the counterexample
environment — the changed mirror there is explained by the
name-not-available justification. -/
theorem c4_status_mirror_writes_witness :
    azureMirrorWriteJustified azureEnvC4 ⟨"acct", "cont"⟩ :=
  (c4_status_mirror_writes azureEnvC4 s3EnvFix ⟨"acct", "cont"⟩
      ⟨"bkt", "us", "", "", false⟩ crFix).2.2.2.1 (by decide)

end ImageRegistry
